import Mathlib

/-!
Verification development for the atlas-web administrative front-end.

We give a shallow embedding of the parts of the code base that carry
behavioural content: the configuration manager with its mtime-based cache
(`src/server/lib/config-manager.ts`), the setup wizard route handlers
(`src/server/routes/setup.route.ts`), the admin configuration and
user-management handlers (`admin.route.ts`), the upload server routes
(`/api/get-upload-url`, `/api/template-upload`, `/api/complete-upload`) and
the chunked presigned upload client (`useServerUploadFileMutation`).

External effects are modelled by explicit inputs: the state of the config
file on disk, the outcome of each HTTP call, and oracles for per-chunk PUT
success.  The client computes its progress percentage in IEEE-754 binary64
arithmetic; that computation is modelled exactly (`rneInt`, `fl64`,
`reportedProgress`), while `jsRound` is the exact rational rounding
`round(num / den)` used by idealised statements about the same quantity.
-/

/-- Exact half-up rounding of the rational `num / den` as a natural
number, `⌊num / den + 1 / 2⌋`: the idealised `round(100 * k / totalChunks)`
a real-arithmetic reading of the progress computation would produce. -/
def jsRound (num den : Nat) : Nat :=
  (2 * num + den) / (2 * den)

/-- Round a rational to the nearest integer, ties to even: the rounding
used by IEEE-754 binary64 arithmetic. -/
def rneInt (x : ℚ) : ℤ :=
  if x - ⌊x⌋ < 1 / 2 then ⌊x⌋
  else if 1 / 2 < x - ⌊x⌋ then ⌊x⌋ + 1
  else if ⌊x⌋ % 2 = 0 then ⌊x⌋ else ⌊x⌋ + 1

theorem le_rneInt (x : ℚ) : ⌊x⌋ ≤ rneInt x := by
  unfold rneInt
  split_ifs <;> omega

theorem rneInt_le (x : ℚ) : rneInt x ≤ ⌊x⌋ + 1 := by
  unfold rneInt
  split_ifs <;> omega

theorem rneInt_intCast (n : ℤ) : rneInt ((n : ℚ)) = n := by
  unfold rneInt
  rw [Int.floor_intCast]
  rw [if_pos (by rw [sub_self]; norm_num)]

theorem rneInt_mono {x y : ℚ} (h : x ≤ y) : rneInt x ≤ rneInt y := by
  have hf : ⌊x⌋ ≤ ⌊y⌋ := Int.floor_le_floor h
  rcases eq_or_lt_of_le hf with heq | hlt
  · have hfr : x - (⌊x⌋ : ℚ) ≤ y - (⌊x⌋ : ℚ) := by linarith
    unfold rneInt
    rw [← heq]
    split_ifs <;> first | omega | linarith
  · calc rneInt x ≤ ⌊x⌋ + 1 := rneInt_le x
      _ ≤ ⌊y⌋ := by omega
      _ ≤ rneInt y := le_rneInt y

/-- IEEE-754 binary64 rounding of a rational: round to a 53-bit
significand at exponent `Int.log 2 x`, nearest, ties to even.
Nonpositive inputs give 0; subnormal underflow and overflow lie outside
the magnitudes the upload client computes and are not modelled. -/
def fl64 (x : ℚ) : ℚ :=
  if x ≤ 0 then 0
  else (rneInt (x * 2 ^ ((52 : ℤ) - Int.log 2 x)) : ℚ) * 2 ^ (Int.log 2 x - 52)

theorem fl64_nonneg (x : ℚ) : 0 ≤ fl64 x := by
  unfold fl64
  split_ifs with h
  · exact le_refl 0
  · have hx : 0 < x := lt_of_not_le h
    have hz : (0:ℚ) ≤ x * 2 ^ ((52:ℤ) - Int.log 2 x) := by positivity
    have h1 : (0:ℤ) ≤ ⌊x * 2 ^ ((52:ℤ) - Int.log 2 x)⌋ := Int.floor_nonneg.mpr hz
    have h2 := le_rneInt (x * 2 ^ ((52:ℤ) - Int.log 2 x))
    have h3 : (0:ℚ) ≤ (rneInt (x * 2 ^ ((52:ℤ) - Int.log 2 x)) : ℚ) := by
      exact_mod_cast le_trans h1 h2
    exact mul_nonneg h3 (by positivity)

theorem zpow_le_fl64 {x : ℚ} (hx : 0 < x) : (2:ℚ) ^ (Int.log 2 x) ≤ fl64 x := by
  unfold fl64
  rw [if_neg (not_le.mpr hx)]
  have hlow : (2:ℚ) ^ (Int.log 2 x) ≤ x := by
    have h := Int.zpow_log_le_self (b := 2) (R := ℚ) (by norm_num) hx
    simpa using h
  have hz : (2:ℚ) ^ ((52:ℤ)) ≤ x * 2 ^ ((52:ℤ) - Int.log 2 x) := by
    calc (2:ℚ) ^ (52:ℤ)
        = (2:ℚ) ^ (Int.log 2 x) * 2 ^ ((52:ℤ) - Int.log 2 x) := by
          rw [← zpow_add₀ (by norm_num : (2:ℚ) ≠ 0)]
          congr 1
          omega
      _ ≤ x * 2 ^ ((52:ℤ) - Int.log 2 x) :=
          mul_le_mul_of_nonneg_right hlow (by positivity)
  have hfl : ((2:ℤ) ^ (52:ℕ)) ≤ ⌊x * 2 ^ ((52:ℤ) - Int.log 2 x)⌋ := by
    rw [Int.le_floor]
    calc (((2:ℤ) ^ (52:ℕ) : ℤ) : ℚ) = (2:ℚ) ^ (52:ℤ) := by norm_num
      _ ≤ x * 2 ^ ((52:ℤ) - Int.log 2 x) := hz
  have hr : ((2:ℤ) ^ (52:ℕ)) ≤ rneInt (x * 2 ^ ((52:ℤ) - Int.log 2 x)) :=
    le_trans hfl (le_rneInt _)
  calc (2:ℚ) ^ (Int.log 2 x)
      = (2:ℚ) ^ (52:ℤ) * 2 ^ (Int.log 2 x - 52) := by
        rw [← zpow_add₀ (by norm_num : (2:ℚ) ≠ 0)]
        congr 1
        omega
    _ ≤ (rneInt (x * 2 ^ ((52:ℤ) - Int.log 2 x)) : ℚ) * 2 ^ (Int.log 2 x - 52) := by
        apply mul_le_mul_of_nonneg_right _ (by positivity)
        calc (2:ℚ) ^ (52:ℤ) = (((2:ℤ) ^ (52:ℕ) : ℤ) : ℚ) := by norm_num
          _ ≤ _ := Int.cast_le.mpr hr

theorem fl64_pos {x : ℚ} (hx : 0 < x) : 0 < fl64 x :=
  lt_of_lt_of_le (by positivity) (zpow_le_fl64 hx)

theorem fl64_le_zpow {x : ℚ} (hx : 0 < x) :
    fl64 x ≤ (2:ℚ) ^ (Int.log 2 x + 1) := by
  unfold fl64
  rw [if_neg (not_le.mpr hx)]
  have hups : x < (2:ℚ) ^ (Int.log 2 x + 1) := by
    have h := Int.lt_zpow_succ_log_self (b := 2) (R := ℚ) (by norm_num) x
    simpa using h
  have hzlt : x * 2 ^ ((52:ℤ) - Int.log 2 x) < (2:ℚ) ^ (53:ℤ) := by
    calc x * 2 ^ ((52:ℤ) - Int.log 2 x)
        < (2:ℚ) ^ (Int.log 2 x + 1) * 2 ^ ((52:ℤ) - Int.log 2 x) :=
          mul_lt_mul_of_pos_right hups (by positivity)
      _ = (2:ℚ) ^ (53:ℤ) := by
          rw [← zpow_add₀ (by norm_num : (2:ℚ) ≠ 0)]
          congr 1
          omega
  have hfl : ⌊x * 2 ^ ((52:ℤ) - Int.log 2 x)⌋ < (2:ℤ) ^ (53:ℕ) := by
    rw [Int.floor_lt]
    calc x * 2 ^ ((52:ℤ) - Int.log 2 x) < (2:ℚ) ^ (53:ℤ) := hzlt
      _ = (((2:ℤ) ^ (53:ℕ) : ℤ) : ℚ) := by norm_num
  have hr : rneInt (x * 2 ^ ((52:ℤ) - Int.log 2 x)) ≤ (2:ℤ) ^ (53:ℕ) := by
    have := rneInt_le (x * 2 ^ ((52:ℤ) - Int.log 2 x))
    omega
  calc (rneInt (x * 2 ^ ((52:ℤ) - Int.log 2 x)) : ℚ) * 2 ^ (Int.log 2 x - 52)
      ≤ (((2:ℤ) ^ (53:ℕ) : ℤ) : ℚ) * 2 ^ (Int.log 2 x - 52) :=
        mul_le_mul_of_nonneg_right (Int.cast_le.mpr hr) (by positivity)
    _ = (2:ℚ) ^ (Int.log 2 x + 1) := by
        rw [show (((2:ℤ) ^ (53:ℕ) : ℤ) : ℚ) = (2:ℚ) ^ (53:ℤ) by norm_num]
        rw [← zpow_add₀ (by norm_num : (2:ℚ) ≠ 0)]
        congr 1
        omega

theorem fl64_mono {x y : ℚ} (h : x ≤ y) : fl64 x ≤ fl64 y := by
  rcases le_or_lt x 0 with hx | hx
  · rw [show fl64 x = 0 from by unfold fl64; rw [if_pos hx]]
    exact fl64_nonneg y
  · have hy : 0 < y := lt_of_lt_of_le hx h
    have hE : Int.log 2 x ≤ Int.log 2 y := Int.log_mono_right hx h
    rcases eq_or_lt_of_le hE with heq | hlt
    · unfold fl64
      rw [if_neg (not_le.mpr hx), if_neg (not_le.mpr hy), ← heq]
      have hmul : x * 2 ^ ((52:ℤ) - Int.log 2 x) ≤ y * 2 ^ ((52:ℤ) - Int.log 2 x) :=
        mul_le_mul_of_nonneg_right h (by positivity)
      exact mul_le_mul_of_nonneg_right
        (Int.cast_le.mpr (rneInt_mono hmul)) (by positivity)
    · calc fl64 x ≤ (2:ℚ) ^ (Int.log 2 x + 1) := fl64_le_zpow hx
        _ ≤ (2:ℚ) ^ (Int.log 2 y) := zpow_le_zpow_right₀ (by norm_num) (by omega)
        _ ≤ fl64 y := zpow_le_fl64 hy

theorem fl64_one : fl64 (1:ℚ) = 1 := by
  unfold fl64
  rw [if_neg (by norm_num), Int.log_one_right]
  rw [show (1:ℚ) * 2 ^ ((52:ℤ) - 0) = ((2 ^ 52 : ℤ) : ℚ) by norm_num]
  rw [rneInt_intCast]
  norm_num

theorem fl64_hundred : fl64 (100:ℚ) = 100 := by
  have hlog : Int.log 2 (100:ℚ) = 6 := by
    have hpos : (0:ℚ) < 100 := by norm_num
    have hlb : ((2:ℕ):ℚ) ^ (6:ℤ) ≤ 100 := by norm_num
    have hub : (100:ℚ) < ((2:ℕ):ℚ) ^ (7:ℤ) := by norm_num
    have h1 := (Int.zpow_le_iff_le_log (by norm_num) hpos).mp hlb
    have h2 := (Int.lt_zpow_iff_log_lt (by norm_num) hpos).mp hub
    omega
  unfold fl64
  rw [if_neg (by norm_num), hlog]
  rw [show (100:ℚ) * 2 ^ ((52:ℤ) - 6) = ((100 * 2 ^ 46 : ℤ) : ℚ) by norm_num]
  rw [rneInt_intCast]
  norm_num

/-- The progress percentage the client reports after chunk `k` of `n`:
`Math.round(((chunkNumber + 1) / totalChunks) * 100)` with the division
and the multiplication carried out in binary64 doubles and `Math.round`
the exact nearest integer (half toward positive infinity) of the
represented double value. -/
def reportedProgress (k n : Nat) : Nat :=
  (⌊fl64 (fl64 ((k : ℚ) / (n : ℚ)) * 100) + 1 / 2⌋).toNat

theorem reportedProgress_mono {k l n : Nat} (h : k ≤ l) :
    reportedProgress k n ≤ reportedProgress l n := by
  unfold reportedProgress
  have h1 : ((k:ℚ)) / (n:ℚ) ≤ (l:ℚ) / (n:ℚ) := by
    rw [div_eq_mul_inv, div_eq_mul_inv]
    exact mul_le_mul_of_nonneg_right (by exact_mod_cast h) (by positivity)
  have h3 : fl64 ((k:ℚ)/(n:ℚ)) * 100 ≤ fl64 ((l:ℚ)/(n:ℚ)) * 100 :=
    mul_le_mul_of_nonneg_right (fl64_mono h1) (by norm_num)
  have h5 : ⌊fl64 (fl64 ((k:ℚ)/(n:ℚ)) * 100) + 1/2⌋ ≤
      ⌊fl64 (fl64 ((l:ℚ)/(n:ℚ)) * 100) + 1/2⌋ := by
    apply Int.floor_le_floor
    have := fl64_mono h3
    linarith
  omega

theorem reportedProgress_le_hundred {k n : Nat} (h : k ≤ n) :
    reportedProgress k n ≤ 100 := by
  unfold reportedProgress
  have h1 : ((k:ℚ)) / (n:ℚ) ≤ 1 := by
    rcases Nat.eq_zero_or_pos n with hn | hn
    · subst hn
      simp
    · rw [div_le_one (by exact_mod_cast hn)]
      exact_mod_cast h
  have h2 : fl64 ((k:ℚ)/(n:ℚ)) ≤ 1 := by
    have := fl64_mono h1
    rwa [fl64_one] at this
  have h4 : fl64 (fl64 ((k:ℚ)/(n:ℚ)) * 100) ≤ 100 := by
    have h3 : fl64 ((k:ℚ)/(n:ℚ)) * 100 ≤ 100 := by linarith
    have := fl64_mono h3
    rwa [fl64_hundred] at this
  have h5 : ⌊fl64 (fl64 ((k:ℚ)/(n:ℚ)) * 100) + 1/2⌋ ≤ 100 := by
    calc ⌊fl64 (fl64 ((k:ℚ)/(n:ℚ)) * 100) + 1/2⌋ ≤ ⌊(201/2 : ℚ)⌋ :=
          Int.floor_le_floor (by linarith)
      _ = 100 := Int.floor_eq_iff.mpr (by norm_num)
  omega

theorem reportedProgress_self {n : Nat} (hn : 0 < n) :
    reportedProgress n n = 100 := by
  unfold reportedProgress
  rw [div_self (by exact_mod_cast hn.ne' : (n:ℚ) ≠ 0), fl64_one, one_mul,
    fl64_hundred]
  rw [show ⌊(100:ℚ) + 1/2⌋ = 100 from Int.floor_eq_iff.mpr (by norm_num)]
  rfl

theorem fl64_23_40 : fl64 ((23:ℚ)/40) = 5179139571476070 / 9007199254740992 := by
  have hlog1 : Int.log 2 ((23:ℚ)/40) = -1 := by
    have hpos : (0:ℚ) < 23/40 := by norm_num
    have hlb : ((2:ℕ):ℚ) ^ (-1:ℤ) ≤ 23/40 := by norm_num
    have hub : ((23:ℚ)/40) < ((2:ℕ):ℚ) ^ (0:ℤ) := by norm_num
    have h1 := (Int.zpow_le_iff_le_log (by norm_num) hpos).mp hlb
    have h2 := (Int.lt_zpow_iff_log_lt (by norm_num) hpos).mp hub
    omega
  have hfloor : ⌊(25895697857380352:ℚ)/5⌋ = 5179139571476070 :=
    Int.floor_eq_iff.mpr (by norm_num)
  have hrne : rneInt ((25895697857380352:ℚ)/5) = 5179139571476070 := by
    unfold rneInt
    rw [hfloor, if_pos (by norm_num)]
  unfold fl64
  rw [if_neg (by norm_num), hlog1,
    show ((23:ℚ)/40) * 2 ^ ((52:ℤ) - (-1)) = 25895697857380352 / 5 by norm_num,
    hrne]
  norm_num

theorem fl64_second_23_40 :
    fl64 ((5179139571476070:ℚ) / 9007199254740992 * 100) =
      8092405580431359 / 140737488355328 := by
  have harg : (5179139571476070:ℚ) / 9007199254740992 * 100 =
      64739244643450875 / 1125899906842624 := by norm_num
  have hpos : (0:ℚ) < 64739244643450875 / 1125899906842624 := by norm_num
  have hlog : Int.log 2 ((64739244643450875:ℚ) / 1125899906842624) = 5 := by
    have hlb : ((2:ℕ):ℚ) ^ (5:ℤ) ≤ 64739244643450875 / 1125899906842624 := by
      norm_num
    have hub : (64739244643450875:ℚ) / 1125899906842624 < ((2:ℕ):ℚ) ^ (6:ℤ) := by
      norm_num
    have h1 := (Int.zpow_le_iff_le_log (by norm_num) hpos).mp hlb
    have h2 := (Int.lt_zpow_iff_log_lt (by norm_num) hpos).mp hub
    omega
  have hfloor : ⌊(64739244643450875:ℚ) / 8⌋ = 8092405580431359 :=
    Int.floor_eq_iff.mpr (by norm_num)
  have hrne : rneInt ((64739244643450875:ℚ)/8) = 8092405580431359 := by
    unfold rneInt
    rw [hfloor, if_pos (by norm_num)]
  rw [harg]
  unfold fl64
  rw [if_neg (by norm_num), hlog,
    show (64739244643450875:ℚ)/1125899906842624 * 2 ^ ((52:ℤ) - 5) =
      64739244643450875 / 8 by norm_num,
    hrne]
  norm_num

/-- After chunk 23 of 40 the client reports 57: the double nearest to
`23 / 40` is `0.57499999999999999289…`, whose product with 100 rounds to
the double `57.49999999999999289…`, and `Math.round` of that is 57 — not
`round(57.5) = 58`. -/
theorem reportedProgress_23_40 : reportedProgress 23 40 = 57 := by
  unfold reportedProgress
  rw [show ((23:ℕ):ℚ) / ((40:ℕ):ℚ) = 23/40 by norm_num, fl64_23_40,
    fl64_second_23_40]
  rw [show ⌊(8092405580431359:ℚ)/140737488355328 + 1/2⌋ = 57 from
    Int.floor_eq_iff.mpr (by norm_num)]
  rfl

/-- JavaScript truthiness of an optional string value: an absent field and
the empty string are falsy. -/
def jsTruthy : Option String → Bool
  | none => false
  | some s => !(s == "")

/-- JavaScript truthiness of an optional character-list value (used for the
URL fields we model as `List Char`). -/
def jsTruthyL : Option (List Char) → Bool
  | none => false
  | some u => !u.isEmpty

/-- The JavaScript object-spread treatment of one optional key:
`\x7b...old, ...input\x7d` keeps the old value exactly when the key is
absent from the input. -/
def mergeOpt {α : Type} (new old : Option α) : Option α :=
  match new with
  | some v => some v
  | none => old

/-- `s.replace(re, repl)` for a regex that is an anchored literal: rewrite
one leading occurrence of `pat` to `repl`, on character lists. -/
def replaceLeadingL (s pat repl : List Char) : List Char :=
  if pat.isPrefixOf s then repl ++ s.drop pat.length else s

/-- The `websocketUrl` derivation used by `saveSetupConfig` and
`updateAtlasConfig`: rewrite a leading `https://` to `wss://`, then a
leading `http://` to `ws://`. -/
def deriveWebsocketUrl (u : List Char) : List Char :=
  replaceLeadingL (replaceLeadingL u "https://".toList "wss://".toList)
    "http://".toList "ws://".toList

theorem replaceLeadingL_append (pat repl rest : List Char) :
    replaceLeadingL (pat ++ rest) pat repl = repl ++ rest := by
  unfold replaceLeadingL
  rw [if_pos (by rw [List.isPrefixOf_iff_prefix]; exact List.prefix_append pat rest)]
  rw [List.drop_left]

theorem deriveWebsocketUrl_https (rest : List Char) :
    deriveWebsocketUrl ("https://".toList ++ rest) = "wss://".toList ++ rest := by
  unfold deriveWebsocketUrl
  rw [replaceLeadingL_append]
  unfold replaceLeadingL
  rw [if_neg]
  simp [List.isPrefixOf]

theorem deriveWebsocketUrl_http (rest : List Char) :
    deriveWebsocketUrl ("http://".toList ++ rest) = "ws://".toList ++ rest := by
  unfold deriveWebsocketUrl
  rw [show replaceLeadingL ("http://".toList ++ rest) "https://".toList "wss://".toList
      = "http://".toList ++ rest from ?_]
  · exact replaceLeadingL_append _ _ rest
  · unfold replaceLeadingL
    rw [if_neg]
    simp [List.isPrefixOf]

/-- `postgresConfig` section of the stored JSON configuration document. -/
structure PgSection where
  host : String
  port : Int
  database : String
  username : String
  password : String
  deriving DecidableEq, Repr

/-- `oidcConfig` section.  `secret` and `scopes` are keys that may be absent
from the document (the setup wizard adds `secret`; `scopes` is optional). -/
structure OidcSection where
  provider : String
  providerName : String
  clientId : String
  clientSecret : String
  authorizationUrl : String
  tokenUrl : String
  userInfoUrl : String
  secret : Option String
  scopes : Option (List String)
  deriving DecidableEq, Repr

/-- `atlasConfig` section.  The URL fields that the code rewrites are
modelled as character lists. -/
structure AtlasSection where
  baseUrl : String
  atlasUrl : List Char
  atlasApiKey : String
  websocketUrl : Option (List Char)
  deriving DecidableEq, Repr

/-- `brandingConfig` section; `logo`, `favicon` and `backgroundImage` are
optional keys. -/
structure BrandingSection where
  displayName : String
  logo : Option String
  favicon : Option String
  primaryColor : String
  backgroundImage : Option String
  deriving DecidableEq, Repr

/-- The stored JSON configuration document `config/config.json`
(`SetupConfig` in `config-manager.ts`). -/
structure StoredDoc where
  postgresConfig : PgSection
  oidcConfig : OidcSection
  atlasConfig : AtlasSection
  brandingConfig : BrandingSection
  completedAt : Option String
  version : Option String
  deriving DecidableEq, Repr

/-- View of `config/config.json` on disk at one point in time: whether the
file is present, its `mtimeMs`, and the outcome of reading and parsing its
bytes (`none` models a read error or a JSON parse error). -/
structure FileView where
  present : Bool
  mtimeMs : Nat
  content : Option StoredDoc
  deriving DecidableEq, Repr

/-- The private fields of the `ConfigManager` singleton:
`cache` and `cacheTimestamp`. -/
structure CacheState where
  cache : Option StoredDoc
  cacheTimestamp : Nat
  deriving DecidableEq, Repr

/-- `ConfigManager.loadConfig`: returns `null` when the file is absent;
returns the cached copy without reading the file when a cache is present
and the file's mtime is not newer than the cached timestamp; otherwise
re-reads and re-parses, storing the result and the mtime in the cache; any
read or parse error yields `null` and leaves the cache untouched. -/
def cmLoadConfig (fsv : FileView) (st : CacheState) :
    Option StoredDoc × CacheState :=
  if fsv.present = false then
    (none, st)
  else
    match st.cache with
    | some c =>
      if fsv.mtimeMs ≤ st.cacheTimestamp then
        (some c, st)
      else
        match fsv.content with
        | some cfg => (some cfg, ⟨some cfg, fsv.mtimeMs⟩)
        | none => (none, st)
    | none =>
      match fsv.content with
      | some cfg => (some cfg, ⟨some cfg, fsv.mtimeMs⟩)
      | none => (none, st)

/-- `ConfigManager.getConfig` simply delegates to `loadConfig`. -/
def cmGetConfig (fsv : FileView) (st : CacheState) :
    Option StoredDoc × CacheState :=
  cmLoadConfig fsv st

/-- `ConfigManager.invalidateCache`: reset cache and timestamp. -/
def cmInvalidateCache (_st : CacheState) : CacheState :=
  ⟨none, 0⟩

/-- A concrete configuration document used to instantiate theorems. -/
def sampleDoc : StoredDoc :=
  { postgresConfig :=
      { host := "db.local", port := 5432, database := "atlas",
        username := "atlas", password := "pw" }
    oidcConfig :=
      { provider := "oidc", providerName := "Example", clientId := "cid",
        clientSecret := "csec", authorizationUrl := "https://idp/auth",
        tokenUrl := "https://idp/token", userInfoUrl := "https://idp/me",
        secret := some "s3cr3t", scopes := some ["openid"] }
    atlasConfig :=
      { baseUrl := "https://panel.example.com",
        atlasUrl := "https://atlas.example.com".toList,
        atlasApiKey := "key123",
        websocketUrl := some "wss://atlas.example.com".toList }
    brandingConfig :=
      { displayName := "Atlas", logo := none, favicon := none,
        primaryColor := "#FF6A3D", backgroundImage := none }
    completedAt := some "2024-01-01T00:00:00.000Z"
    version := some "1.0.0" }

/-- C2: `getConfig` implements hot reload with cache invalidation — missing
file gives `null`; with a cached copy and an mtime not newer than the cached
timestamp it returns the cached copy without re-reading (the result and the
state are the same for every on-disk content); otherwise it re-reads,
re-parses and stores result and mtime; after `invalidateCache` the very
next `getConfig` re-reads from disk regardless of the mtime; a read or
parse error yields `null`. -/
theorem configManager_getConfig_hot_reload :
    ∀ (fsv : FileView) (st : CacheState),
      (fsv.present = false → cmGetConfig fsv st = (none, st)) ∧
      (∀ c, fsv.present = true → st.cache = some c →
        fsv.mtimeMs ≤ st.cacheTimestamp → cmGetConfig fsv st = (some c, st)) ∧
      ((st.cache = none ∨ st.cacheTimestamp < fsv.mtimeMs) → fsv.present = true →
        ∀ cfg, fsv.content = some cfg →
          cmGetConfig fsv st = (some cfg, ⟨some cfg, fsv.mtimeMs⟩)) ∧
      ((st.cache = none ∨ st.cacheTimestamp < fsv.mtimeMs) → fsv.present = true →
        fsv.content = none → cmGetConfig fsv st = (none, st)) ∧
      (fsv.present = true →
        (cmGetConfig fsv (cmInvalidateCache st)).1 = fsv.content) := by
  intro fsv st
  refine ⟨?_, ?_, ?_, ?_, ?_⟩
  · intro h
    simp [cmGetConfig, cmLoadConfig, h]
  · intro c hp hc hle
    simp [cmGetConfig, cmLoadConfig, hp, hc, hle]
  · intro hmiss hp cfg hcontent
    rcases hmiss with hnone | hlt
    · simp [cmGetConfig, cmLoadConfig, hp, hnone, hcontent]
    · rcases hcache : st.cache with _ | c
      · simp [cmGetConfig, cmLoadConfig, hp, hcache, hcontent]
      · simp [cmGetConfig, cmLoadConfig, hp, hcache, hcontent,
          Nat.not_le.mpr hlt]
  · intro hmiss hp hcontent
    rcases hmiss with hnone | hlt
    · simp [cmGetConfig, cmLoadConfig, hp, hnone, hcontent]
    · rcases hcache : st.cache with _ | c
      · simp [cmGetConfig, cmLoadConfig, hp, hcache, hcontent]
      · simp [cmGetConfig, cmLoadConfig, hp, hcache, hcontent,
          Nat.not_le.mpr hlt]
  · intro hp
    rcases hcontent : fsv.content with _ | cfg <;>
      simp [cmGetConfig, cmLoadConfig, cmInvalidateCache, hp, hcontent]

/-- Closed instantiation of the hot-reload theorem: each branch exercised
at concrete file views and cache states. -/
theorem configManager_getConfig_hot_reload_witness :
    cmGetConfig ⟨false, 5, none⟩ ⟨none, 0⟩ = (none, ⟨none, 0⟩) ∧
    cmGetConfig ⟨true, 5, none⟩ ⟨some sampleDoc, 7⟩ =
      (some sampleDoc, ⟨some sampleDoc, 7⟩) ∧
    cmGetConfig ⟨true, 9, some sampleDoc⟩ ⟨none, 0⟩ =
      (some sampleDoc, ⟨some sampleDoc, 9⟩) ∧
    cmGetConfig ⟨true, 9, none⟩ ⟨none, 0⟩ = (none, ⟨none, 0⟩) ∧
    (cmGetConfig ⟨true, 0, some sampleDoc⟩
      (cmInvalidateCache ⟨some sampleDoc, 99⟩)).1 = some sampleDoc :=
  ⟨(configManager_getConfig_hot_reload ⟨false, 5, none⟩ ⟨none, 0⟩).1 rfl,
   (configManager_getConfig_hot_reload ⟨true, 5, none⟩
      ⟨some sampleDoc, 7⟩).2.1 sampleDoc rfl rfl (by decide),
   (configManager_getConfig_hot_reload ⟨true, 9, some sampleDoc⟩
      ⟨none, 0⟩).2.2.1 (Or.inl rfl) rfl sampleDoc rfl,
   (configManager_getConfig_hot_reload ⟨true, 9, none⟩
      ⟨none, 0⟩).2.2.2.1 (Or.inl rfl) rfl rfl,
   (configManager_getConfig_hot_reload ⟨true, 0, some sampleDoc⟩
      (cmInvalidateCache ⟨some sampleDoc, 99⟩)).2.2.2.2 rfl⟩

/-- `oidcConfig` group collected by the setup wizard (`setupConfigSchema`):
no `secret` (it is generated server-side) and no `scopes` key. -/
structure SetupOidcInput where
  provider : String
  providerName : String
  clientId : String
  clientSecret : String
  authorizationUrl : String
  tokenUrl : String
  userInfoUrl : String
  deriving DecidableEq, Repr

/-- `brandingConfig` group of the setup wizard schema. -/
structure SetupBrandingInput where
  displayName : String
  logo : Option String
  primaryColor : String
  backgroundImage : Option String
  deriving DecidableEq, Repr

/-- `atlasConfig` group of the setup wizard schema and of
`updateAtlasConfig`. -/
structure AtlasInput where
  baseUrl : String
  atlasUrl : List Char
  atlasApiKey : String
  deriving DecidableEq, Repr

/-- The validated input of `saveSetupConfig`: the four wizard groups. -/
structure SetupInput where
  postgresConfig : PgSection
  oidcConfig : SetupOidcInput
  atlasConfig : AtlasInput
  brandingConfig : SetupBrandingInput
  deriving DecidableEq, Repr

/-- One `fs.writeFileSync` of a JSON document. -/
structure FsWrite where
  path : String
  doc : StoredDoc
  deriving DecidableEq, Repr

/-- Value returned by `saveSetupConfig` on success. -/
structure SaveResult where
  success : Bool
  message : String
  config : StoredDoc
  deriving DecidableEq, Repr

def configFilePath : String := "config/config.json"

/-- `saveSetupConfig`'s success path: augment the input with the generated
oidc `secret` (`BETTER_AUTH_SECRET` or 32 random bytes), the
`websocketUrl` derived from `atlasUrl`, the `completedAt` timestamp `now`
and the package `version`; write the document once to
`config/config.json`; return it.  The list records every file write the
handler performs. -/
def saveSetupConfig (input : SetupInput) (secret now version : String) :
    List FsWrite × SaveResult :=
  let doc : StoredDoc :=
    { postgresConfig := input.postgresConfig
      oidcConfig :=
        { provider := input.oidcConfig.provider
          providerName := input.oidcConfig.providerName
          clientId := input.oidcConfig.clientId
          clientSecret := input.oidcConfig.clientSecret
          authorizationUrl := input.oidcConfig.authorizationUrl
          tokenUrl := input.oidcConfig.tokenUrl
          userInfoUrl := input.oidcConfig.userInfoUrl
          secret := some secret
          scopes := none }
      atlasConfig :=
        { baseUrl := input.atlasConfig.baseUrl
          atlasUrl := input.atlasConfig.atlasUrl
          atlasApiKey := input.atlasConfig.atlasApiKey
          websocketUrl := some (deriveWebsocketUrl input.atlasConfig.atlasUrl) }
      brandingConfig :=
        { displayName := input.brandingConfig.displayName
          logo := input.brandingConfig.logo
          favicon := none
          primaryColor := input.brandingConfig.primaryColor
          backgroundImage := input.brandingConfig.backgroundImage }
      completedAt := some now
      version := some version }
  ([⟨configFilePath, doc⟩],
   ⟨true, "Setup configuration saved successfully", doc⟩)

/-- C3: `saveSetupConfig` persists all four wizard groups to the single
file `config/config.json` in one write, augmenting the input with the
generated oidc secret, a `websocketUrl` obtained by rewriting a leading
`https://` of `atlasUrl` to `wss://` (or `http://` to `ws://`), the
`completedAt` timestamp and the package version; on success it returns
`success = true` together with exactly the document that was written. -/
theorem saveSetupConfig_persists_all_sections :
    ∀ (input : SetupInput) (secret now version : String),
      (∃ d : StoredDoc,
        (saveSetupConfig input secret now version).1 = [⟨configFilePath, d⟩] ∧
        (saveSetupConfig input secret now version).2 =
          ⟨true, "Setup configuration saved successfully", d⟩ ∧
        d.postgresConfig = input.postgresConfig ∧
        d.oidcConfig =
          ⟨input.oidcConfig.provider, input.oidcConfig.providerName,
           input.oidcConfig.clientId, input.oidcConfig.clientSecret,
           input.oidcConfig.authorizationUrl, input.oidcConfig.tokenUrl,
           input.oidcConfig.userInfoUrl, some secret, none⟩ ∧
        d.atlasConfig =
          ⟨input.atlasConfig.baseUrl, input.atlasConfig.atlasUrl,
           input.atlasConfig.atlasApiKey,
           some (deriveWebsocketUrl input.atlasConfig.atlasUrl)⟩ ∧
        d.brandingConfig =
          ⟨input.brandingConfig.displayName, input.brandingConfig.logo, none,
           input.brandingConfig.primaryColor,
           input.brandingConfig.backgroundImage⟩ ∧
        d.completedAt = some now ∧
        d.version = some version) ∧
      (∀ rest : List Char,
        deriveWebsocketUrl ("https://".toList ++ rest) = "wss://".toList ++ rest) ∧
      (∀ rest : List Char,
        deriveWebsocketUrl ("http://".toList ++ rest) = "ws://".toList ++ rest) := by
  intro input secret now version
  refine ⟨⟨_, rfl, rfl, rfl, rfl, rfl, rfl, rfl, rfl⟩,
    deriveWebsocketUrl_https, deriveWebsocketUrl_http⟩

/-- What the admin `getConfig` handler returns for the `postgresConfig`
section: no `password`. -/
structure PgView where
  host : String
  port : Int
  database : String
  username : String
  deriving DecidableEq, Repr

/-- Admin `getConfig` view of `oidcConfig`: no `clientSecret`, no `secret`. -/
structure OidcView where
  provider : String
  providerName : String
  clientId : String
  authorizationUrl : String
  tokenUrl : String
  userInfoUrl : String
  scopes : Option (List String)
  deriving DecidableEq, Repr

/-- Admin `getConfig` view of `atlasConfig`: no `atlasApiKey`. -/
structure AtlasView where
  baseUrl : String
  atlasUrl : List Char
  websocketUrl : Option (List Char)
  deriving DecidableEq, Repr

/-- Full response of the admin `getConfig` handler (`brandingConfig` is
passed through whole). -/
structure AdminConfigView where
  postgresConfig : PgView
  oidcConfig : OidcView
  atlasConfig : AtlasView
  brandingConfig : BrandingSection
  deriving DecidableEq, Repr

/-- Body of the admin `getConfig` handler after the file has been read and
parsed: the explicit field picks of `admin.route.ts`. -/
def adminGetConfigView (c : StoredDoc) : AdminConfigView :=
  { postgresConfig :=
      { host := c.postgresConfig.host, port := c.postgresConfig.port,
        database := c.postgresConfig.database,
        username := c.postgresConfig.username }
    oidcConfig :=
      { provider := c.oidcConfig.provider,
        providerName := c.oidcConfig.providerName,
        clientId := c.oidcConfig.clientId,
        authorizationUrl := c.oidcConfig.authorizationUrl,
        tokenUrl := c.oidcConfig.tokenUrl,
        userInfoUrl := c.oidcConfig.userInfoUrl,
        scopes := c.oidcConfig.scopes }
    atlasConfig :=
      { baseUrl := c.atlasConfig.baseUrl,
        atlasUrl := c.atlasConfig.atlasUrl,
        websocketUrl := c.atlasConfig.websocketUrl }
    brandingConfig := c.brandingConfig }

/-- C9: the admin `getConfig` response is independent of the four secret
fields — overwriting `postgresConfig.password`, `oidcConfig.clientSecret`,
`oidcConfig.secret` and `atlasConfig.atlasApiKey` with arbitrary values
leaves the response unchanged, so two stored files differing only in those
fields produce identical responses and no secret reaches the client. -/
theorem adminGetConfig_redacts_secrets :
    ∀ (c : StoredDoc) (pw cs : String) (sec : Option String) (key : String),
      adminGetConfigView
        { c with
          postgresConfig := { c.postgresConfig with password := pw }
          oidcConfig := { c.oidcConfig with clientSecret := cs, secret := sec }
          atlasConfig := { c.atlasConfig with atlasApiKey := key } } =
      adminGetConfigView c := by
  intro c pw cs sec key
  rfl

/-- Input schema of `updateAuthConfig`: the seven required strings plus the
optional `scopes` array. -/
structure OidcInput where
  provider : String
  providerName : String
  clientId : String
  clientSecret : String
  authorizationUrl : String
  tokenUrl : String
  userInfoUrl : String
  scopes : Option (List String)
  deriving DecidableEq, Repr

/-- Input schema of `updateBrandingConfig`. -/
structure BrandingInput where
  displayName : String
  logo : Option String
  favicon : Option String
  primaryColor : String
  backgroundImage : Option String
  deriving DecidableEq, Repr

/-- The document transformation of `updateDatabaseConfig`: the spread
`\x7b ...config.postgresConfig, ...input \x7d` with every key of the
section required in the input. -/
def applyUpdateDatabaseConfig (doc : StoredDoc) (input : PgSection) : StoredDoc :=
  { doc with postgresConfig :=
      { host := input.host, port := input.port, database := input.database,
        username := input.username, password := input.password } }

/-- The document transformation of `updateAuthConfig`: required keys come
from the input, `secret` is not in the input schema and survives, and the
optional `scopes` key survives exactly when absent from the input. -/
def applyUpdateAuthConfig (doc : StoredDoc) (input : OidcInput) : StoredDoc :=
  { doc with oidcConfig :=
      { provider := input.provider, providerName := input.providerName,
        clientId := input.clientId, clientSecret := input.clientSecret,
        authorizationUrl := input.authorizationUrl, tokenUrl := input.tokenUrl,
        userInfoUrl := input.userInfoUrl,
        secret := doc.oidcConfig.secret,
        scopes := mergeOpt input.scopes doc.oidcConfig.scopes } }

/-- The document transformation of `updateAtlasConfig`: the three input
keys plus the recomputed `websocketUrl`. -/
def applyUpdateAtlasConfig (doc : StoredDoc) (input : AtlasInput) : StoredDoc :=
  { doc with atlasConfig :=
      { baseUrl := input.baseUrl, atlasUrl := input.atlasUrl,
        atlasApiKey := input.atlasApiKey,
        websocketUrl := some (deriveWebsocketUrl input.atlasUrl) } }

/-- The document transformation of `updateBrandingConfig`. -/
def applyUpdateBrandingConfig (doc : StoredDoc) (input : BrandingInput) : StoredDoc :=
  { doc with brandingConfig :=
      { displayName := input.displayName,
        logo := mergeOpt input.logo doc.brandingConfig.logo,
        favicon := mergeOpt input.favicon doc.brandingConfig.favicon,
        primaryColor := input.primaryColor,
        backgroundImage := mergeOpt input.backgroundImage
          doc.brandingConfig.backgroundImage } }

/-- C10: each admin configuration-update endpoint touches only its own
section of the stored document; the other three sections, `completedAt`
and `version` are unchanged; within the updated section the required keys
come from the input, `updateAtlasConfig` recomputes `websocketUrl` from
the input `atlasUrl`, and keys not present in the input (`secret`, an
omitted `scopes`, omitted branding keys) keep their previous values. -/
theorem adminUpdate_section_frame :
    ∀ (doc : StoredDoc) (pg : PgSection) (oi : OidcInput) (ai : AtlasInput)
      (bi : BrandingInput),
      ((applyUpdateDatabaseConfig doc pg).oidcConfig = doc.oidcConfig ∧
       (applyUpdateDatabaseConfig doc pg).atlasConfig = doc.atlasConfig ∧
       (applyUpdateDatabaseConfig doc pg).brandingConfig = doc.brandingConfig ∧
       (applyUpdateDatabaseConfig doc pg).completedAt = doc.completedAt ∧
       (applyUpdateDatabaseConfig doc pg).version = doc.version ∧
       (applyUpdateDatabaseConfig doc pg).postgresConfig = pg) ∧
      ((oi.scopes = none →
         (applyUpdateAuthConfig doc oi).oidcConfig.scopes = doc.oidcConfig.scopes) ∧
       (∀ s, oi.scopes = some s →
         (applyUpdateAuthConfig doc oi).oidcConfig.scopes = some s) ∧
       (applyUpdateAuthConfig doc oi).oidcConfig.secret = doc.oidcConfig.secret ∧
       (applyUpdateAuthConfig doc oi).postgresConfig = doc.postgresConfig ∧
       (applyUpdateAuthConfig doc oi).atlasConfig = doc.atlasConfig ∧
       (applyUpdateAuthConfig doc oi).brandingConfig = doc.brandingConfig ∧
       (applyUpdateAuthConfig doc oi).completedAt = doc.completedAt ∧
       (applyUpdateAuthConfig doc oi).version = doc.version ∧
       (applyUpdateAuthConfig doc oi).oidcConfig.provider = oi.provider ∧
       (applyUpdateAuthConfig doc oi).oidcConfig.providerName = oi.providerName ∧
       (applyUpdateAuthConfig doc oi).oidcConfig.clientId = oi.clientId ∧
       (applyUpdateAuthConfig doc oi).oidcConfig.clientSecret = oi.clientSecret ∧
       (applyUpdateAuthConfig doc oi).oidcConfig.authorizationUrl = oi.authorizationUrl ∧
       (applyUpdateAuthConfig doc oi).oidcConfig.tokenUrl = oi.tokenUrl ∧
       (applyUpdateAuthConfig doc oi).oidcConfig.userInfoUrl = oi.userInfoUrl) ∧
      ((applyUpdateAtlasConfig doc ai).postgresConfig = doc.postgresConfig ∧
       (applyUpdateAtlasConfig doc ai).oidcConfig = doc.oidcConfig ∧
       (applyUpdateAtlasConfig doc ai).brandingConfig = doc.brandingConfig ∧
       (applyUpdateAtlasConfig doc ai).completedAt = doc.completedAt ∧
       (applyUpdateAtlasConfig doc ai).version = doc.version ∧
       (applyUpdateAtlasConfig doc ai).atlasConfig =
         ⟨ai.baseUrl, ai.atlasUrl, ai.atlasApiKey,
          some (deriveWebsocketUrl ai.atlasUrl)⟩) ∧
      ((bi.logo = none →
         (applyUpdateBrandingConfig doc bi).brandingConfig.logo =
           doc.brandingConfig.logo) ∧
       (bi.favicon = none →
         (applyUpdateBrandingConfig doc bi).brandingConfig.favicon =
           doc.brandingConfig.favicon) ∧
       (bi.backgroundImage = none →
         (applyUpdateBrandingConfig doc bi).brandingConfig.backgroundImage =
           doc.brandingConfig.backgroundImage) ∧
       (∀ v, bi.logo = some v →
         (applyUpdateBrandingConfig doc bi).brandingConfig.logo = some v) ∧
       (applyUpdateBrandingConfig doc bi).brandingConfig.displayName =
         bi.displayName ∧
       (applyUpdateBrandingConfig doc bi).brandingConfig.primaryColor =
         bi.primaryColor ∧
       (applyUpdateBrandingConfig doc bi).postgresConfig = doc.postgresConfig ∧
       (applyUpdateBrandingConfig doc bi).oidcConfig = doc.oidcConfig ∧
       (applyUpdateBrandingConfig doc bi).atlasConfig = doc.atlasConfig ∧
       (applyUpdateBrandingConfig doc bi).completedAt = doc.completedAt ∧
       (applyUpdateBrandingConfig doc bi).version = doc.version) := by
  intro doc pg oi ai bi
  refine ⟨⟨rfl, rfl, rfl, rfl, rfl, rfl⟩,
    ⟨?_, ?_, rfl, rfl, rfl, rfl, rfl, rfl, rfl, rfl, rfl, rfl, rfl, rfl, rfl⟩,
    ⟨rfl, rfl, rfl, rfl, rfl, rfl⟩,
    ⟨?_, ?_, ?_, ?_, rfl, rfl, rfl, rfl, rfl, rfl, rfl⟩⟩
  · intro h
    simp [applyUpdateAuthConfig, mergeOpt, h]
  · intro s h
    simp [applyUpdateAuthConfig, mergeOpt, h]
  · intro h
    simp [applyUpdateBrandingConfig, mergeOpt, h]
  · intro h
    simp [applyUpdateBrandingConfig, mergeOpt, h]
  · intro h
    simp [applyUpdateBrandingConfig, mergeOpt, h]
  · intro v h
    simp [applyUpdateBrandingConfig, mergeOpt, h]

def pgInputSample : PgSection :=
  ⟨"db2.local", 5433, "atlas2", "u2", "pw2"⟩

def oidcInputNone : OidcInput :=
  ⟨"oidc", "NewIdp", "cid2", "cs2", "https://idp2/auth", "https://idp2/token",
   "https://idp2/me", none⟩

def oidcInputSome : OidcInput :=
  { oidcInputNone with scopes := some ["email"] }

def atlasInputSample : AtlasInput :=
  ⟨"https://panel2.example.com", "http://atlas2.example.com".toList, "key2"⟩

def brandingInputSample : BrandingInput :=
  ⟨"Atlas2", none, none, "#FFFFFF", none⟩

/-- Closed instantiation of the frame theorem at a concrete document and
concrete inputs, discharging the optional-key hypotheses both ways. -/
theorem adminUpdate_section_frame_witness :
    (applyUpdateDatabaseConfig sampleDoc pgInputSample).oidcConfig =
      sampleDoc.oidcConfig ∧
    (applyUpdateAuthConfig sampleDoc oidcInputNone).oidcConfig.scopes =
      sampleDoc.oidcConfig.scopes ∧
    (applyUpdateAuthConfig sampleDoc oidcInputSome).oidcConfig.scopes =
      some ["email"] ∧
    (applyUpdateAtlasConfig sampleDoc atlasInputSample).atlasConfig =
      ⟨atlasInputSample.baseUrl, atlasInputSample.atlasUrl,
       atlasInputSample.atlasApiKey,
       some (deriveWebsocketUrl atlasInputSample.atlasUrl)⟩ ∧
    (applyUpdateBrandingConfig sampleDoc brandingInputSample).brandingConfig.logo =
      sampleDoc.brandingConfig.logo :=
  ⟨(adminUpdate_section_frame sampleDoc pgInputSample oidcInputNone
      atlasInputSample brandingInputSample).1.1,
   (adminUpdate_section_frame sampleDoc pgInputSample oidcInputNone
      atlasInputSample brandingInputSample).2.1.1 rfl,
   (adminUpdate_section_frame sampleDoc pgInputSample oidcInputSome
      atlasInputSample brandingInputSample).2.1.2.1 ["email"] rfl,
   (adminUpdate_section_frame sampleDoc pgInputSample oidcInputNone
      atlasInputSample brandingInputSample).2.2.1.2.2.2.2.2,
   (adminUpdate_section_frame sampleDoc pgInputSample oidcInputNone
      atlasInputSample brandingInputSample).2.2.2.1 rfl⟩

/-- An `ORPCError` thrown by a handler: its code and message. -/
structure ORPCFail where
  code : String
  message : String
  deriving DecidableEq, Repr

/-- The `\x7b success, message \x7d` value returned by the admin
user-management handlers. -/
structure OpOutcome where
  success : Bool
  message : String
  deriving DecidableEq, Repr

/-- `requireAdmin`: `hasUser` is whether `session?.user` is present,
`listUsersOk` whether the Better Auth admin `listUsers` probe succeeds
(the admin-permission check). -/
def requireAdmin (hasUser listUsersOk : Bool) : Except ORPCFail Unit :=
  if !hasUser then
    Except.error ⟨"UNAUTHORIZED", "Authentication required"⟩
  else if !listUsersOk then
    Except.error ⟨"FORBIDDEN", "Admin role required"⟩
  else
    Except.ok ()

/-- `updateUserRole`: guard with `requireAdmin`, delegate
`auth.api.setRole` (`svc`), wrap its failure in an `INTERNAL_ERROR`. -/
def updateUserRole (hasUser listUsersOk : Bool) (svc : Except String Unit) :
    Except ORPCFail OpOutcome :=
  match requireAdmin hasUser listUsersOk with
  | Except.error e => Except.error e
  | Except.ok _ =>
    match svc with
    | Except.ok _ => Except.ok ⟨true, "User role updated successfully"⟩
    | Except.error e =>
      Except.error ⟨"INTERNAL_ERROR", "Failed to update user role: " ++ e⟩

/-- `banUser`: guard, delegate `auth.api.banUser`, wrap failures. -/
def banUser (hasUser listUsersOk : Bool) (svc : Except String Unit) :
    Except ORPCFail OpOutcome :=
  match requireAdmin hasUser listUsersOk with
  | Except.error e => Except.error e
  | Except.ok _ =>
    match svc with
    | Except.ok _ => Except.ok ⟨true, "User banned successfully"⟩
    | Except.error e =>
      Except.error ⟨"INTERNAL_ERROR", "Failed to ban user: " ++ e⟩

/-- `unbanUser`: guard, delegate `auth.api.unbanUser`, wrap failures. -/
def unbanUser (hasUser listUsersOk : Bool) (svc : Except String Unit) :
    Except ORPCFail OpOutcome :=
  match requireAdmin hasUser listUsersOk with
  | Except.error e => Except.error e
  | Except.ok _ =>
    match svc with
    | Except.ok _ => Except.ok ⟨true, "User unbanned successfully"⟩
    | Except.error e =>
      Except.error ⟨"INTERNAL_ERROR", "Failed to unban user: " ++ e⟩

/-- `deleteUser`: guard, delegate `auth.api.removeUser`, wrap failures. -/
def deleteUser (hasUser listUsersOk : Bool) (svc : Except String Unit) :
    Except ORPCFail OpOutcome :=
  match requireAdmin hasUser listUsersOk with
  | Except.error e => Except.error e
  | Except.ok _ =>
    match svc with
    | Except.ok _ => Except.ok ⟨true, "User deleted successfully"⟩
    | Except.error e =>
      Except.error ⟨"INTERNAL_ERROR", "Failed to delete user: " ++ e⟩

/-- C6: every admin user-management operation first demands an
authenticated admin (UNAUTHORIZED without a session user, FORBIDDEN when
the admin probe fails), then delegates to the auth service and returns
`\x7b success := true \x7d` with a message; a failed delegation becomes an
INTERNAL_ERROR whose message embeds the underlying error, never a partial
success value. -/
theorem adminUserOps_guard_and_delegate :
    ∀ (hasUser listUsersOk : Bool) (svc : Except String Unit),
      ((hasUser = false → updateUserRole hasUser listUsersOk svc =
          Except.error ⟨"UNAUTHORIZED", "Authentication required"⟩) ∧
       (hasUser = true → listUsersOk = false →
         updateUserRole hasUser listUsersOk svc =
           Except.error ⟨"FORBIDDEN", "Admin role required"⟩) ∧
       (hasUser = true → listUsersOk = true → ∀ e, svc = Except.error e →
         updateUserRole hasUser listUsersOk svc =
           Except.error ⟨"INTERNAL_ERROR", "Failed to update user role: " ++ e⟩) ∧
       (hasUser = true → listUsersOk = true → svc = Except.ok () →
         updateUserRole hasUser listUsersOk svc =
           Except.ok ⟨true, "User role updated successfully"⟩)) ∧
      ((hasUser = false → banUser hasUser listUsersOk svc =
          Except.error ⟨"UNAUTHORIZED", "Authentication required"⟩) ∧
       (hasUser = true → listUsersOk = false →
         banUser hasUser listUsersOk svc =
           Except.error ⟨"FORBIDDEN", "Admin role required"⟩) ∧
       (hasUser = true → listUsersOk = true → ∀ e, svc = Except.error e →
         banUser hasUser listUsersOk svc =
           Except.error ⟨"INTERNAL_ERROR", "Failed to ban user: " ++ e⟩) ∧
       (hasUser = true → listUsersOk = true → svc = Except.ok () →
         banUser hasUser listUsersOk svc =
           Except.ok ⟨true, "User banned successfully"⟩)) ∧
      ((hasUser = false → unbanUser hasUser listUsersOk svc =
          Except.error ⟨"UNAUTHORIZED", "Authentication required"⟩) ∧
       (hasUser = true → listUsersOk = false →
         unbanUser hasUser listUsersOk svc =
           Except.error ⟨"FORBIDDEN", "Admin role required"⟩) ∧
       (hasUser = true → listUsersOk = true → ∀ e, svc = Except.error e →
         unbanUser hasUser listUsersOk svc =
           Except.error ⟨"INTERNAL_ERROR", "Failed to unban user: " ++ e⟩) ∧
       (hasUser = true → listUsersOk = true → svc = Except.ok () →
         unbanUser hasUser listUsersOk svc =
           Except.ok ⟨true, "User unbanned successfully"⟩)) ∧
      ((hasUser = false → deleteUser hasUser listUsersOk svc =
          Except.error ⟨"UNAUTHORIZED", "Authentication required"⟩) ∧
       (hasUser = true → listUsersOk = false →
         deleteUser hasUser listUsersOk svc =
           Except.error ⟨"FORBIDDEN", "Admin role required"⟩) ∧
       (hasUser = true → listUsersOk = true → ∀ e, svc = Except.error e →
         deleteUser hasUser listUsersOk svc =
           Except.error ⟨"INTERNAL_ERROR", "Failed to delete user: " ++ e⟩) ∧
       (hasUser = true → listUsersOk = true → svc = Except.ok () →
         deleteUser hasUser listUsersOk svc =
           Except.ok ⟨true, "User deleted successfully"⟩)) := by
  intro hasUser listUsersOk svc
  refine ⟨⟨?_, ?_, ?_, ?_⟩, ⟨?_, ?_, ?_, ?_⟩, ⟨?_, ?_, ?_, ?_⟩, ⟨?_, ?_, ?_, ?_⟩⟩
  all_goals first
    | (intro h1; subst h1; rfl)
    | (intro h1 h2 e h3; subst h1; subst h2; subst h3; rfl)
    | (intro h1 h2 h3; subst h1; subst h2; subst h3; rfl)
    | (intro h1 h2; subst h1; subst h2; rfl)

/-- Closed instantiation: each guard and delegation outcome exercised. -/
theorem adminUserOps_guard_and_delegate_witness :
    updateUserRole false true (Except.ok ()) =
      Except.error ⟨"UNAUTHORIZED", "Authentication required"⟩ ∧
    banUser true false (Except.ok ()) =
      Except.error ⟨"FORBIDDEN", "Admin role required"⟩ ∧
    unbanUser true true (Except.error "boom") =
      Except.error ⟨"INTERNAL_ERROR", "Failed to unban user: " ++ "boom"⟩ ∧
    deleteUser true true (Except.ok ()) =
      Except.ok ⟨true, "User deleted successfully"⟩ :=
  ⟨(adminUserOps_guard_and_delegate false true (Except.ok ())).1.1 rfl,
   (adminUserOps_guard_and_delegate true false (Except.ok ())).2.1.2.1 rfl rfl,
   (adminUserOps_guard_and_delegate true true
      (Except.error "boom")).2.2.1.2.2.1 rfl rfl "boom" rfl,
   (adminUserOps_guard_and_delegate true true (Except.ok ())).2.2.2.2.2.2 rfl rfl rfl⟩

/-- `\x7b success, message \x7d` value returned by the setup test
handlers. -/
structure TestResult where
  success : Bool
  message : String
  deriving DecidableEq, Repr

/-- Result of `testAtlasConnection`, which also carries the Atlas `status`
payload on success. -/
structure AtlasTestResult where
  success : Bool
  message : String
  data : Option String
  deriving DecidableEq, Repr

def pgForbiddenMsg : String :=
  "Setup has already been completed. Cannot test database connection."

def oidcForbiddenMsg : String :=
  "Setup has already been completed. Cannot test OIDC connection."

def atlasForbiddenMsg : String :=
  "Setup has already been completed. Cannot test Atlas connection."

/-- The guard at the top of each setup test handler: when
`config/config.json` exists, its bytes are read and parsed (a read or
parse failure throws with that error's message), and if the parsed
document has a truthy `completedAt`, the handler throws the FORBIDDEN
`ORPCError` whose message is `forbiddenMsg`.  The thrown message is the
`Except.error` payload. -/
def setupCompletedGate (configExists : Bool) (fileRead : Except String StoredDoc)
    (forbiddenMsg : String) : Except String Unit :=
  if configExists then
    match fileRead with
    | Except.error m => Except.error m
    | Except.ok cfg =>
      if jsTruthy cfg.completedAt then Except.error forbiddenMsg
      else Except.ok ()
  else
    Except.ok ()

/-- The `try` block of `testPostgresConnection`: gate, then the probe
connection (`SELECT 1`); a probe failure throws with its message. -/
def testPostgresTry (configExists : Bool) (fileRead : Except String StoredDoc)
    (connect : Except String Unit) : Except String TestResult :=
  match setupCompletedGate configExists fileRead pgForbiddenMsg with
  | Except.error m => Except.error m
  | Except.ok _ =>
    match connect with
    | Except.error m => Except.error m
    | Except.ok _ => Except.ok ⟨true, "Database connection successful"⟩

/-- The handler's own `catch` block: any thrown error becomes
`\x7b success := false, message \x7d`. -/
def runSetupCatch (t : Except String TestResult) : TestResult :=
  match t with
  | Except.ok r => r
  | Except.error m => ⟨false, m⟩

/-- `testPostgresConnection` as the client sees it. -/
def testPostgresConnection (configExists : Bool)
    (fileRead : Except String StoredDoc) (connect : Except String Unit) :
    TestResult :=
  runSetupCatch (testPostgresTry configExists fileRead connect)

/-- The `try` block of `testOidcConnection`: gate, then HEAD-probe the
three URLs (each probe has its own catch, so probing never throws) and
report the unreachable ones. -/
def testOidcTry (configExists : Bool) (fileRead : Except String StoredDoc)
    (authorizationUrl tokenUrl userInfoUrl : String)
    (reachable : String → Bool) : Except String TestResult :=
  match setupCompletedGate configExists fileRead oidcForbiddenMsg with
  | Except.error m => Except.error m
  | Except.ok _ =>
    let urls := [authorizationUrl, tokenUrl, userInfoUrl]
    let unreachable := urls.filter fun u => !(reachable u)
    if unreachable.isEmpty then
      Except.ok ⟨true, "OIDC configuration validated successfully"⟩
    else
      Except.ok ⟨false, "Unable to reach: " ++ String.intercalate ", " unreachable⟩

/-- `testOidcConnection` as the client sees it. -/
def testOidcConnection (configExists : Bool) (fileRead : Except String StoredDoc)
    (authorizationUrl tokenUrl userInfoUrl : String)
    (reachable : String → Bool) : TestResult :=
  runSetupCatch
    (testOidcTry configExists fileRead authorizationUrl tokenUrl userInfoUrl reachable)

/-- The `try` block of `testAtlasConnection`: gate, then
`atlasClient.getStatus()`; its failure throws with its message. -/
def testAtlasTry (configExists : Bool) (fileRead : Except String StoredDoc)
    (getStatus : Except String String) : Except String AtlasTestResult :=
  match setupCompletedGate configExists fileRead atlasForbiddenMsg with
  | Except.error m => Except.error m
  | Except.ok _ =>
    match getStatus with
    | Except.error m => Except.error m
    | Except.ok status => Except.ok ⟨true, "Atlas API connection successful", some status⟩

/-- The atlas handler's `catch` block (`data` is absent on failure). -/
def runAtlasCatch (t : Except String AtlasTestResult) : AtlasTestResult :=
  match t with
  | Except.ok r => r
  | Except.error m => ⟨false, m, none⟩

/-- `testAtlasConnection` as the client sees it. -/
def testAtlasConnection (configExists : Bool) (fileRead : Except String StoredDoc)
    (getStatus : Except String String) : AtlasTestResult :=
  runAtlasCatch (testAtlasTry configExists fileRead getStatus)

/-- C8: none of the setup test handlers lets an error escape: on every
execution path the client receives a plain result value.  In particular
the FORBIDDEN error each handler constructs when setup is already
completed is caught by the handler's own catch and surfaces as
`\x7b success := false, message := <the FORBIDDEN message> \x7d`, and so
does a config read/parse failure and a failed probe. -/
theorem setupTests_never_throw :
    ∀ (configExists : Bool) (fileRead : Except String StoredDoc)
      (connect : Except String Unit) (aUrl tUrl uUrl : String)
      (reachable : String → Bool) (getStatus : Except String String),
      (∀ cfg, configExists = true → fileRead = Except.ok cfg →
        jsTruthy cfg.completedAt = true →
        testPostgresConnection configExists fileRead connect =
          ⟨false, pgForbiddenMsg⟩ ∧
        testOidcConnection configExists fileRead aUrl tUrl uUrl reachable =
          ⟨false, oidcForbiddenMsg⟩ ∧
        testAtlasConnection configExists fileRead getStatus =
          ⟨false, atlasForbiddenMsg, none⟩) ∧
      (∀ m, configExists = true → fileRead = Except.error m →
        testPostgresConnection configExists fileRead connect = ⟨false, m⟩ ∧
        testOidcConnection configExists fileRead aUrl tUrl uUrl reachable =
          ⟨false, m⟩ ∧
        testAtlasConnection configExists fileRead getStatus = ⟨false, m, none⟩) ∧
      (setupCompletedGate configExists fileRead pgForbiddenMsg = Except.ok () →
        (∀ m, connect = Except.error m →
          testPostgresConnection configExists fileRead connect = ⟨false, m⟩) ∧
        (connect = Except.ok () →
          testPostgresConnection configExists fileRead connect =
            ⟨true, "Database connection successful"⟩)) ∧
      (setupCompletedGate configExists fileRead oidcForbiddenMsg = Except.ok () →
        (([aUrl, tUrl, uUrl].filter fun u => !(reachable u)).isEmpty = true →
          testOidcConnection configExists fileRead aUrl tUrl uUrl reachable =
            ⟨true, "OIDC configuration validated successfully"⟩) ∧
        (([aUrl, tUrl, uUrl].filter fun u => !(reachable u)).isEmpty = false →
          testOidcConnection configExists fileRead aUrl tUrl uUrl reachable =
            ⟨false, "Unable to reach: " ++ String.intercalate ", "
              ([aUrl, tUrl, uUrl].filter fun u => !(reachable u))⟩)) ∧
      (setupCompletedGate configExists fileRead atlasForbiddenMsg = Except.ok () →
        (∀ m, getStatus = Except.error m →
          testAtlasConnection configExists fileRead getStatus = ⟨false, m, none⟩) ∧
        (∀ st, getStatus = Except.ok st →
          testAtlasConnection configExists fileRead getStatus =
            ⟨true, "Atlas API connection successful", some st⟩)) := by
  intro configExists fileRead connect aUrl tUrl uUrl reachable getStatus
  refine ⟨?_, ?_, ?_, ?_, ?_⟩
  · intro cfg hex hread hdone
    subst hex; subst hread
    refine ⟨?_, ?_, ?_⟩ <;>
      simp [testPostgresConnection, testOidcConnection, testAtlasConnection,
        testPostgresTry, testOidcTry, testAtlasTry, setupCompletedGate,
        runSetupCatch, runAtlasCatch, hdone]
  · intro m hex hread
    subst hex; subst hread
    refine ⟨?_, ?_, ?_⟩ <;>
      simp [testPostgresConnection, testOidcConnection, testAtlasConnection,
        testPostgresTry, testOidcTry, testAtlasTry, setupCompletedGate,
        runSetupCatch, runAtlasCatch]
  · intro hgate
    constructor
    · intro m hconn
      simp [testPostgresConnection, testPostgresTry, hgate, hconn, runSetupCatch]
    · intro hconn
      simp [testPostgresConnection, testPostgresTry, hgate, hconn, runSetupCatch]
  · intro hgate
    constructor
    · intro hempty
      simp [testOidcConnection, testOidcTry, hgate, hempty, runSetupCatch]
    · intro hempty
      simp [testOidcConnection, testOidcTry, hgate, hempty, runSetupCatch]
  · intro hgate
    constructor
    · intro m hst
      simp [testAtlasConnection, testAtlasTry, hgate, hst, runAtlasCatch]
    · intro st hst
      simp [testAtlasConnection, testAtlasTry, hgate, hst, runAtlasCatch]

/-- Closed instantiation: the completed-setup FORBIDDEN rejection reaches
the client as an ordinary unsuccessful result for all three handlers, and
the other paths return their plain results. -/
theorem setupTests_never_throw_witness :
    (testPostgresConnection true (Except.ok sampleDoc) (Except.ok ()) =
      ⟨false, pgForbiddenMsg⟩ ∧
     testOidcConnection true (Except.ok sampleDoc) "a" "b" "c" (fun _ => true) =
      ⟨false, oidcForbiddenMsg⟩ ∧
     testAtlasConnection true (Except.ok sampleDoc) (Except.ok "up") =
      ⟨false, atlasForbiddenMsg, none⟩) ∧
    testPostgresConnection false (Except.error "bad json") (Except.error "refused") =
      ⟨false, "refused"⟩ ∧
    testAtlasConnection false (Except.error "bad json") (Except.ok "up") =
      ⟨true, "Atlas API connection successful", some "up"⟩ :=
  ⟨(setupTests_never_throw true (Except.ok sampleDoc) (Except.ok ())
      "a" "b" "c" (fun _ => true) (Except.ok "up")).1 sampleDoc rfl rfl (by decide),
   ((setupTests_never_throw false (Except.error "bad json")
      (Except.error "refused") "a" "b" "c" (fun _ => true)
      (Except.ok "up")).2.2.1 rfl).1 "refused" rfl,
   ((setupTests_never_throw false (Except.error "bad json")
      (Except.error "refused") "a" "b" "c" (fun _ => true)
      (Except.ok "up")).2.2.2.2 rfl).2 "up" rfl⟩

/-- Parsed JSON body of a POST to `/api/get-upload-url`; a field is `none`
when the key is absent from the body. -/
structure UploadUrlBody where
  serverId : Option String
  path : Option String
  deriving DecidableEq, Repr

/-- The presigned-upload object nested under `data` in the Atlas
response. -/
structure PresignData where
  uploadPath : List Char
  token : String
  expiresAt : String
  method : String
  deriving DecidableEq, Repr

/-- The parsed Atlas response; the handler reads its nested `data`. -/
structure AtlasJson where
  data : PresignData
  deriving DecidableEq, Repr

/-- Outcome of the `fetch` to the Atlas presign endpoint when it does not
throw: the `ok` status flag, the error text used when it is not ok, and
the outcome of `atlasResponse.json()` (`none` = the body cannot be
parsed). -/
structure AtlasHttpResp where
  ok : Bool
  text : String
  json : Option AtlasJson
  deriving DecidableEq, Repr

/-- HTTP response of `/api/get-upload-url`: a plain error response or a
200 JSON response whose body is the nested Atlas `data` object extended
with the `atlasBaseUrl` field (the object spread
`\x7b ...atlasData.data, atlasBaseUrl \x7d`). -/
inductive HttpOut
  | err (status : Nat) (body : String)
  | okJson (data : PresignData) (atlasBaseUrl : List Char)
  deriving DecidableEq, Repr

/-- Status code of a route response. -/
def HttpOut.status : HttpOut → Nat
  | HttpOut.err s _ => s
  | HttpOut.okJson _ _ => 200

/-- The POST handler of `/api/get-upload-url`.  `hasSession` is whether
`auth.api.getSession` returned a session; `body` is the outcome of
`request.json()` (`none` = it threw, landing in the catch); `atlasCfg` is
`configManager.getAtlasConfig()`; `atlasFetch` is the outcome of the
`fetch` to Atlas (`none` = the fetch threw).  Catch-path 500 bodies whose
exact JavaScript error text we do not model are rendered as the fallback
message the route uses. -/
def getUploadUrlRoute (hasSession : Bool) (body : Option UploadUrlBody)
    (atlasCfg : Option AtlasSection) (atlasFetch : Option AtlasHttpResp) :
    HttpOut :=
  if !hasSession then
    HttpOut.err 401 "Unauthorized"
  else
    match body with
    | none => HttpOut.err 500 "Failed to get upload URL"
    | some b =>
      if !(jsTruthy b.serverId) || !(jsTruthy b.path) then
        HttpOut.err 400 "Missing serverId or path"
      else
        let atlasBaseUrl := atlasCfg.map AtlasSection.atlasUrl
        let atlasApiKey := atlasCfg.map AtlasSection.atlasApiKey
        if !(jsTruthyL atlasBaseUrl) || !(jsTruthy atlasApiKey) then
          HttpOut.err 500 "Atlas configuration not found"
        else
          match atlasFetch with
          | none => HttpOut.err 500 "Failed to get upload URL"
          | some resp =>
            if !resp.ok then
              HttpOut.err 500 ("Atlas API Error: " ++ resp.text)
            else
              match resp.json with
              | none => HttpOut.err 500 "Failed to get upload URL"
              | some j => HttpOut.okJson j.data (atlasBaseUrl.getD [])

/-- C5: `/api/get-upload-url` returns 401 without a session; 400 when
`serverId` or `path` is missing from a parsed body; 500 when the stored
Atlas configuration lacks `atlasUrl` or `atlasApiKey`; on a successful
Atlas call it returns 200 with Atlas's nested `data` object extended with
`atlasBaseUrl`; and it returns 500 when the Atlas call fails or a body
cannot be parsed. -/
theorem getUploadUrlRoute_status_spec :
    ∀ (hasSession : Bool) (body : Option UploadUrlBody)
      (atlasCfg : Option AtlasSection) (atlasFetch : Option AtlasHttpResp),
      (hasSession = false →
        getUploadUrlRoute hasSession body atlasCfg atlasFetch =
          HttpOut.err 401 "Unauthorized") ∧
      (hasSession = true → ∀ b, body = some b →
        (jsTruthy b.serverId = false ∨ jsTruthy b.path = false) →
        getUploadUrlRoute hasSession body atlasCfg atlasFetch =
          HttpOut.err 400 "Missing serverId or path") ∧
      (hasSession = true → ∀ b, body = some b →
        jsTruthy b.serverId = true → jsTruthy b.path = true →
        (jsTruthyL (atlasCfg.map AtlasSection.atlasUrl) = false ∨
         jsTruthy (atlasCfg.map AtlasSection.atlasApiKey) = false) →
        getUploadUrlRoute hasSession body atlasCfg atlasFetch =
          HttpOut.err 500 "Atlas configuration not found") ∧
      (hasSession = true → ∀ b, body = some b →
        jsTruthy b.serverId = true → jsTruthy b.path = true →
        jsTruthyL (atlasCfg.map AtlasSection.atlasUrl) = true →
        jsTruthy (atlasCfg.map AtlasSection.atlasApiKey) = true →
        ∀ resp, atlasFetch = some resp → resp.ok = true →
        ∀ j, resp.json = some j →
        getUploadUrlRoute hasSession body atlasCfg atlasFetch =
          HttpOut.okJson j.data ((atlasCfg.map AtlasSection.atlasUrl).getD []) ∧
        (getUploadUrlRoute hasSession body atlasCfg atlasFetch).status = 200) ∧
      (hasSession = true → ∀ b, body = some b →
        jsTruthy b.serverId = true → jsTruthy b.path = true →
        jsTruthyL (atlasCfg.map AtlasSection.atlasUrl) = true →
        jsTruthy (atlasCfg.map AtlasSection.atlasApiKey) = true →
        (atlasFetch = none ∨
         (∃ resp, atlasFetch = some resp ∧ resp.ok = false) ∨
         (∃ resp, atlasFetch = some resp ∧ resp.json = none)) →
        (getUploadUrlRoute hasSession body atlasCfg atlasFetch).status = 500) ∧
      (hasSession = true → body = none →
        (getUploadUrlRoute hasSession body atlasCfg atlasFetch).status = 500) := by
  intro hasSession body atlasCfg atlasFetch
  refine ⟨?_, ?_, ?_, ?_, ?_, ?_⟩
  · intro h
    subst h
    rfl
  · intro hs b hb hmiss
    subst hs; subst hb
    rcases hmiss with h | h <;> simp [getUploadUrlRoute, h]
  · intro hs b hb hsid hpath hcfg
    subst hs; subst hb
    rcases hcfg with h | h <;> simp [getUploadUrlRoute, hsid, hpath, h]
  · intro hs b hb hsid hpath hurl hkey resp hresp hok j hjson
    subst hs; subst hb; subst hresp
    constructor
    · simp [getUploadUrlRoute, hsid, hpath, hurl, hkey, hok, hjson]
    · simp [getUploadUrlRoute, HttpOut.status, hsid, hpath, hurl, hkey, hok, hjson]
  · intro hs b hb hsid hpath hurl hkey hfail
    subst hs; subst hb
    rcases hfail with h | ⟨resp, hresp, hok⟩ | ⟨resp, hresp, hjson⟩
    · subst h
      simp [getUploadUrlRoute, HttpOut.status, hsid, hpath, hurl, hkey]
    · subst hresp
      simp [getUploadUrlRoute, HttpOut.status, hsid, hpath, hurl, hkey, hok]
    · subst hresp
      rcases hok : resp.ok with _ | _
      · simp [getUploadUrlRoute, HttpOut.status, hsid, hpath, hurl, hkey, hok]
      · simp [getUploadUrlRoute, HttpOut.status, hsid, hpath, hurl, hkey, hok, hjson]
  · intro hs hb
    subst hs; subst hb
    rfl

def sampleAtlasCfg : AtlasSection :=
  { baseUrl := "https://panel.example.com",
    atlasUrl := "https://atlas.example.com".toList,
    atlasApiKey := "key123",
    websocketUrl := none }

def samplePresign : PresignData :=
  { uploadPath := "/api/v1/servers/s1/files/upload/presigned/abc".toList,
    token := "tok", expiresAt := "2024-01-01T00:05:00.000Z", method := "POST" }

/-- Closed instantiation of the route specification: every status branch
exercised at concrete requests. -/
theorem getUploadUrlRoute_status_spec_witness :
    getUploadUrlRoute false none none none = HttpOut.err 401 "Unauthorized" ∧
    getUploadUrlRoute true (some ⟨some "s1", none⟩) none none =
      HttpOut.err 400 "Missing serverId or path" ∧
    getUploadUrlRoute true (some ⟨some "s1", some "p.txt"⟩) none none =
      HttpOut.err 500 "Atlas configuration not found" ∧
    getUploadUrlRoute true (some ⟨some "s1", some "p.txt"⟩) (some sampleAtlasCfg)
      (some ⟨true, "", some ⟨samplePresign⟩⟩) =
      HttpOut.okJson samplePresign sampleAtlasCfg.atlasUrl ∧
    (getUploadUrlRoute true (some ⟨some "s1", some "p.txt"⟩) (some sampleAtlasCfg)
      (some ⟨false, "boom", none⟩)).status = 500 ∧
    (getUploadUrlRoute true none (some sampleAtlasCfg) none).status = 500 :=
  ⟨(getUploadUrlRoute_status_spec false none none none).1 rfl,
   (getUploadUrlRoute_status_spec true (some ⟨some "s1", none⟩) none none).2.1
      rfl ⟨some "s1", none⟩ rfl (Or.inr (by decide)),
   (getUploadUrlRoute_status_spec true (some ⟨some "s1", some "p.txt"⟩) none
      none).2.2.1 rfl ⟨some "s1", some "p.txt"⟩ rfl (by decide) (by decide)
      (Or.inl (by decide)),
   ((getUploadUrlRoute_status_spec true (some ⟨some "s1", some "p.txt"⟩)
      (some sampleAtlasCfg) (some ⟨true, "", some ⟨samplePresign⟩⟩)).2.2.2.1
      rfl ⟨some "s1", some "p.txt"⟩ rfl (by decide) (by decide) (by decide)
      (by decide) ⟨true, "", some ⟨samplePresign⟩⟩ rfl rfl ⟨samplePresign⟩ rfl).1,
   (getUploadUrlRoute_status_spec true (some ⟨some "s1", some "p.txt"⟩)
      (some sampleAtlasCfg) (some ⟨false, "boom", none⟩)).2.2.2.2.1
      rfl ⟨some "s1", some "p.txt"⟩ rfl (by decide) (by decide) (by decide)
      (by decide) (Or.inr (Or.inl ⟨⟨false, "boom", none⟩, rfl, rfl⟩)),
   (getUploadUrlRoute_status_spec true none (some sampleAtlasCfg)
      none).2.2.2.2.2 rfl rfl⟩

/-- The data extracted from a successful presign attempt inside
`/api/template-upload`'s inner `try`: `presignData.data.uploadPath`. -/
structure TemplatePresignOk where
  uploadPath : List Char
  deriving DecidableEq, Repr

/-- Whether an `Except` computation succeeded. -/
def exceptOk {ε α : Type} : Except ε α → Bool
  | Except.ok _ => true
  | Except.error _ => false

/-- The upstream mechanism targeted by the final streaming POST of
`/api/template-upload`: the presigned URL `atlasBaseUrl + uploadPath`, or
the direct endpoint
`atlasBaseUrl + "/api/v1/templates/files/upload?path=" + encodeURIComponent(path)`
identified here by the raw `path`. -/
inductive Mechanism
  | presigned (url : List Char)
  | direct (path : String)
  deriving DecidableEq, Repr

/-- Outcome of the final streaming POST to Atlas when it does not throw
(`json` is the outcome of `response.json()`). -/
structure UploadHttpResp where
  ok : Bool
  text : String
  json : Option String
  deriving DecidableEq, Repr

/-- Response of `/api/template-upload` plus the facts the claim is about:
which mechanism the upload POST used (`none` when no upload POST was
attempted) and whether the presign attempt failed, making the route fall
back to the direct endpoint. -/
structure TemplateOut where
  status : Nat
  body : String
  mechanismUsed : Option Mechanism
  presignFellBack : Bool
  deriving DecidableEq, Repr

/-- The POST handler of `/api/template-upload`.  `presign` is the outcome
of the inner `try` that requests a presigned URL (`Except.error ()`
collapses a thrown fetch, a non-ok response and a failed `.json()`, all of
which trigger the fallback); `upload` is the outcome of the final
streaming POST (`none` = it threw).  Catch-path bodies whose exact
JavaScript error text we do not model are rendered with the route's
fallback message. -/
def templateUploadRoute (hasSession : Bool) (pathParam : Option String)
    (atlasCfg : Option AtlasSection) (presign : Except Unit TemplatePresignOk)
    (upload : Option UploadHttpResp) : TemplateOut :=
  if !hasSession then
    ⟨401, "Unauthorized", none, false⟩
  else if !(jsTruthy pathParam) then
    ⟨400, "Missing path parameter", none, false⟩
  else if !(jsTruthyL (atlasCfg.map AtlasSection.atlasUrl)) ||
          !(jsTruthy (atlasCfg.map AtlasSection.atlasApiKey)) then
    ⟨500, "Atlas configuration not found", none, false⟩
  else
    let mech := match presign with
      | Except.ok d =>
        Mechanism.presigned
          ((atlasCfg.map AtlasSection.atlasUrl).getD [] ++ d.uploadPath)
      | Except.error _ => Mechanism.direct (pathParam.getD "")
    let fellBack := !(exceptOk presign)
    match upload with
    | none => ⟨500, "Template upload failed", some mech, fellBack⟩
    | some r =>
      if !r.ok then
        ⟨500, "Atlas API Error: " ++ r.text, some mech, fellBack⟩
      else
        match r.json with
        | none => ⟨500, "Template upload failed", some mech, fellBack⟩
        | some j => ⟨200, j, some mech, fellBack⟩

/-- C4 is false on the code: `/api/template-upload` does contain a
recovery policy.  At this concrete request the presign step fails, the
route falls back to the direct upload mechanism, and the response is a
200, not an error — refuting "for every request, either the first
attempted upstream mechanism is used or an error response is
returned". -/
theorem templateUpload_no_fallback_counterexample :
    ¬ (∀ (hasSession : Bool) (pathParam : Option String)
        (atlasCfg : Option AtlasSection)
        (presign : Except Unit TemplatePresignOk)
        (upload : Option UploadHttpResp),
        (templateUploadRoute hasSession pathParam atlasCfg presign
          upload).presignFellBack = false ∨
        400 ≤ (templateUploadRoute hasSession pathParam atlasCfg presign
          upload).status) := by
  intro h
  have h2 := h true (some "plugins/x.jar") (some sampleAtlasCfg)
    (Except.error ()) (some ⟨true, "", some "uploaded"⟩)
  revert h2
  decide

/-- C4 (amended): every failing step of `/api/template-upload` surfaces
as a plain HTTP error response (400/401/500) and a 200 occurs exactly
when the final upload POST succeeds — but the route has one recovery
step: when the guards pass, it falls back to the direct template-upload
endpoint exactly when its presign attempt fails, and uses the presigned
URL exactly when the presign attempt succeeds. -/
theorem templateUpload_error_and_fallback_spec :
    ∀ (hasSession : Bool) (pathParam : Option String)
      (atlasCfg : Option AtlasSection) (presign : Except Unit TemplatePresignOk)
      (upload : Option UploadHttpResp),
      ((templateUploadRoute hasSession pathParam atlasCfg presign upload).status = 200 ∨
       (templateUploadRoute hasSession pathParam atlasCfg presign upload).status = 400 ∨
       (templateUploadRoute hasSession pathParam atlasCfg presign upload).status = 401 ∨
       (templateUploadRoute hasSession pathParam atlasCfg presign upload).status = 500) ∧
      ((templateUploadRoute hasSession pathParam atlasCfg presign
          upload).presignFellBack = true → exceptOk presign = false) ∧
      (hasSession = true → jsTruthy pathParam = true →
       jsTruthyL (atlasCfg.map AtlasSection.atlasUrl) = true →
       jsTruthy (atlasCfg.map AtlasSection.atlasApiKey) = true →
        (templateUploadRoute hasSession pathParam atlasCfg presign
           upload).presignFellBack = !(exceptOk presign) ∧
        (∀ d, presign = Except.ok d →
          (templateUploadRoute hasSession pathParam atlasCfg presign
            upload).mechanismUsed =
          some (Mechanism.presigned
            ((atlasCfg.map AtlasSection.atlasUrl).getD [] ++ d.uploadPath))) ∧
        (exceptOk presign = false →
          (templateUploadRoute hasSession pathParam atlasCfg presign
            upload).mechanismUsed =
          some (Mechanism.direct (pathParam.getD ""))) ∧
        ((templateUploadRoute hasSession pathParam atlasCfg presign
            upload).status = 200 ↔
          (match upload with
           | some r => r.ok && r.json.isSome
           | none => false) = true)) := by
  intro hs pp cfg pre up
  refine ⟨?_, ?_, ?_⟩
  · rcases hs with _ | _
    · simp [templateUploadRoute]
    · by_cases h2 : jsTruthy pp = true
      · by_cases h3 : jsTruthyL (cfg.map AtlasSection.atlasUrl) = true
        · by_cases h4 : jsTruthy (cfg.map AtlasSection.atlasApiKey) = true
          · rcases up with _ | ⟨rok, rtext, rjson⟩
            · rcases pre with u | d <;> simp [templateUploadRoute, h2, h3, h4]
            · rcases rok with _ | _ <;> rcases rjson with _ | j <;>
                rcases pre with u | d <;> simp [templateUploadRoute, h2, h3, h4]
          · simp [templateUploadRoute, h2, h3, h4]
        · simp [templateUploadRoute, h2, h3]
      · simp [templateUploadRoute, h2]
  · intro hfb
    rcases hs with _ | _
    · simp [templateUploadRoute] at hfb
    · by_cases h2 : jsTruthy pp = true
      · by_cases h3 : jsTruthyL (cfg.map AtlasSection.atlasUrl) = true
        · by_cases h4 : jsTruthy (cfg.map AtlasSection.atlasApiKey) = true
          · rcases pre with u | d
            · rfl
            · rcases up with _ | ⟨rok, rtext, rjson⟩
              · simp [templateUploadRoute, h2, h3, h4, exceptOk] at hfb
              · rcases rok with _ | _ <;> rcases rjson with _ | j <;>
                  simp [templateUploadRoute, h2, h3, h4, exceptOk] at hfb
          · simp [templateUploadRoute, h2, h3, h4] at hfb
        · simp [templateUploadRoute, h2, h3] at hfb
      · simp [templateUploadRoute, h2] at hfb
  · intro h1 h2 h3 h4
    subst h1
    refine ⟨?_, ?_, ?_, ?_⟩
    · rcases up with _ | ⟨rok, rtext, rjson⟩
      · simp [templateUploadRoute, h2, h3, h4]
      · rcases rok with _ | _ <;> rcases rjson with _ | j <;>
          simp [templateUploadRoute, h2, h3, h4]
    · intro d hd
      subst hd
      rcases up with _ | ⟨rok, rtext, rjson⟩
      · simp [templateUploadRoute, h2, h3, h4]
      · rcases rok with _ | _ <;> rcases rjson with _ | j <;>
          simp [templateUploadRoute, h2, h3, h4]
    · intro hpre
      rcases pre with u | d
      · rcases up with _ | ⟨rok, rtext, rjson⟩
        · simp [templateUploadRoute, h2, h3, h4]
        · rcases rok with _ | _ <;> rcases rjson with _ | j <;>
            simp [templateUploadRoute, h2, h3, h4]
      · simp [exceptOk] at hpre
    · rcases up with _ | ⟨rok, rtext, rjson⟩
      · simp [templateUploadRoute, h2, h3, h4]
      · rcases rok with _ | _ <;> rcases rjson with _ | j <;>
          simp [templateUploadRoute, h2, h3, h4]

/-- Closed instantiation of the amended specification: at a concrete
request whose presign attempt fails, the route reports the fallback, uses
the direct mechanism and still answers 200; with a successful presign it
uses the presigned URL. -/
theorem templateUpload_error_and_fallback_spec_witness :
    (templateUploadRoute true (some "plugins/x.jar") (some sampleAtlasCfg)
      (Except.error ()) (some ⟨true, "", some "uploaded"⟩)).presignFellBack =
      !(exceptOk (Except.error () : Except Unit TemplatePresignOk)) ∧
    (templateUploadRoute true (some "plugins/x.jar") (some sampleAtlasCfg)
      (Except.error ()) (some ⟨true, "", some "uploaded"⟩)).mechanismUsed =
      some (Mechanism.direct "plugins/x.jar") ∧
    ((templateUploadRoute true (some "plugins/x.jar") (some sampleAtlasCfg)
      (Except.error ()) (some ⟨true, "", some "uploaded"⟩)).status = 200 ↔
      (match (some ⟨true, "", some "uploaded"⟩ : Option UploadHttpResp) with
       | some r => r.ok && r.json.isSome
       | none => false) = true) ∧
    (templateUploadRoute true (some "plugins/x.jar") (some sampleAtlasCfg)
      (Except.ok ⟨"/presigned/xyz".toList⟩)
      (some ⟨true, "", some "uploaded"⟩)).mechanismUsed =
      some (Mechanism.presigned
        (sampleAtlasCfg.atlasUrl ++ "/presigned/xyz".toList)) :=
  ⟨((templateUpload_error_and_fallback_spec true (some "plugins/x.jar")
      (some sampleAtlasCfg) (Except.error ())
      (some ⟨true, "", some "uploaded"⟩)).2.2 rfl (by decide) (by decide)
      (by decide)).1,
   ((templateUpload_error_and_fallback_spec true (some "plugins/x.jar")
      (some sampleAtlasCfg) (Except.error ())
      (some ⟨true, "", some "uploaded"⟩)).2.2 rfl (by decide) (by decide)
      (by decide)).2.2.1 rfl,
   ((templateUpload_error_and_fallback_spec true (some "plugins/x.jar")
      (some sampleAtlasCfg) (Except.error ())
      (some ⟨true, "", some "uploaded"⟩)).2.2 rfl (by decide) (by decide)
      (by decide)).2.2.2,
   ((templateUpload_error_and_fallback_spec true (some "plugins/x.jar")
      (some sampleAtlasCfg) (Except.ok ⟨"/presigned/xyz".toList⟩)
      (some ⟨true, "", some "uploaded"⟩)).2.2 rfl (by decide) (by decide)
      (by decide)).2.1 ⟨"/presigned/xyz".toList⟩ rfl⟩

/-- Client-side upload status in the upload-progress context. -/
inductive MutStatus
  | uploading
  | completed
  | error
  deriving DecidableEq, Repr

/-- Observable actions of the chunked upload client: a presigned PUT of
one chunk covering bytes `[startByte, endByte)`, an `updateUpload`
progress report, and the call to the completion endpoint
`/api/complete-upload`. -/
inductive ChunkEvent
  | putChunk (chunkNumber startByte endByte : Nat)
  | progressSet (p : Nat)
  | completeCall
  deriving DecidableEq, Repr

/-- The `for` loop of `uploadFileChunked`, about to send chunk `i` with
`fuel` chunks still to send; `putOk j` is whether chunk `j`'s presigned
PUT succeeds.  Each iteration slices
`file.slice(i * chunkSize, min(i * chunkSize + chunkSize, file.size))`,
PUTs it, and on success reports progress
`Math.round(((i + 1) / totalChunks) * 100)`, computed in binary64 doubles
(`reportedProgress`); on failure the loop rejects and nothing further
happens.  Returns the emitted events and whether the loop ran to
completion. -/
def runChunks (fileSize chunkSize totalChunks : Nat) (putOk : Nat → Bool) :
    Nat → Nat → List ChunkEvent × Bool
  | _, 0 => ([], true)
  | i, fuel + 1 =>
    if putOk i then
      (ChunkEvent.putChunk i (i * chunkSize)
          (min (i * chunkSize + chunkSize) fileSize) ::
        ChunkEvent.progressSet (reportedProgress (i + 1) totalChunks) ::
          (runChunks fileSize chunkSize totalChunks putOk (i + 1) fuel).1,
       (runChunks fileSize chunkSize totalChunks putOk (i + 1) fuel).2)
    else
      ([ChunkEvent.putChunk i (i * chunkSize)
          (min (i * chunkSize + chunkSize) fileSize)], false)

/-- `uploadFileChunked`: run the chunk loop from chunk 0; only when every
chunk PUT succeeded, call the completion endpoint once. -/
def uploadFileChunked (fileSize chunkSize totalChunks : Nat)
    (putOk : Nat → Bool) : List ChunkEvent × Bool :=
  if (runChunks fileSize chunkSize totalChunks putOk 0 totalChunks).2 = true then
    ((runChunks fileSize chunkSize totalChunks putOk 0 totalChunks).1 ++
       [ChunkEvent.completeCall], true)
  else
    ((runChunks fileSize chunkSize totalChunks putOk 0 totalChunks).1, false)

/-- The event trace of one chunked upload. -/
def uploadTrace (fileSize chunkSize totalChunks : Nat)
    (putOk : Nat → Bool) : List ChunkEvent :=
  (uploadFileChunked fileSize chunkSize totalChunks putOk).1

/-- Outcome of the chunked branch of the mutation: its events, the
progress value set by the final `updateUpload` (`none` when the error
handler runs, which sets only the status) and the final status. -/
structure MutationRun where
  events : List ChunkEvent
  finalProgress : Option Nat
  finalStatus : MutStatus
  deriving DecidableEq, Repr

/-- The chunked path of the mutation function: on success of
`uploadFileChunked` the final `updateUpload` sets progress 100 and status
completed; on failure the catch sets status error. -/
def chunkedMutation (fileSize chunkSize totalChunks : Nat)
    (putOk : Nat → Bool) : MutationRun :=
  if (uploadFileChunked fileSize chunkSize totalChunks putOk).2 = true then
    ⟨(uploadFileChunked fileSize chunkSize totalChunks putOk).1,
     some 100, MutStatus.completed⟩
  else
    ⟨(uploadFileChunked fileSize chunkSize totalChunks putOk).1,
     none, MutStatus.error⟩

/-- The chunk numbers of the PUT requests in a trace, in order. -/
def putNumbers (t : List ChunkEvent) : List Nat :=
  t.filterMap fun e =>
    match e with
    | ChunkEvent.putChunk j _ _ => some j
    | _ => none

/-- The reported progress values of a trace, in order. -/
def progressValues (t : List ChunkEvent) : List Nat :=
  t.filterMap fun e =>
    match e with
    | ChunkEvent.progressSet p => some p
    | _ => none

theorem putNumbers_cons_put (j s e : Nat) (t : List ChunkEvent) :
    putNumbers (ChunkEvent.putChunk j s e :: t) = j :: putNumbers t := rfl

theorem putNumbers_cons_progress (p : Nat) (t : List ChunkEvent) :
    putNumbers (ChunkEvent.progressSet p :: t) = putNumbers t := rfl

theorem progressValues_cons_put (j s e : Nat) (t : List ChunkEvent) :
    progressValues (ChunkEvent.putChunk j s e :: t) = progressValues t := rfl

theorem progressValues_cons_progress (p : Nat) (t : List ChunkEvent) :
    progressValues (ChunkEvent.progressSet p :: t) = p :: progressValues t := rfl

/-- Number of consecutive successful PUTs starting at chunk `i`, capped at
`fuel`. -/
def okRun (putOk : Nat → Bool) : Nat → Nat → Nat
  | _, 0 => 0
  | i, fuel + 1 => if putOk i then okRun putOk (i + 1) fuel + 1 else 0

theorem okRun_le (putOk : Nat → Bool) :
    ∀ fuel i, okRun putOk i fuel ≤ fuel := by
  intro fuel
  induction fuel with
  | zero => intro i; simp [okRun]
  | succ f ih =>
    intro i
    by_cases h : putOk i = true
    · simp only [okRun, if_pos h]
      exact Nat.succ_le_succ (ih (i + 1))
    · simp only [okRun, if_neg h]
      exact Nat.zero_le _

theorem okRun_lt_putOk (putOk : Nat → Bool) :
    ∀ fuel i j, j < okRun putOk i fuel → putOk (i + j) = true := by
  intro fuel
  induction fuel with
  | zero => intro i j hj; simp [okRun] at hj
  | succ f ih =>
    intro i j hj
    by_cases h : putOk i = true
    · simp only [okRun, if_pos h] at hj
      rcases j with _ | k
      · simpa using h
      · have := ih (i + 1) k (by omega)
        have harith : i + 1 + k = i + (k + 1) := by omega
        rwa [harith] at this
    · simp only [okRun, if_neg h] at hj
      omega

theorem okRun_eq_iff (putOk : Nat → Bool) :
    ∀ fuel i, okRun putOk i fuel = fuel ↔
      ∀ j, j < fuel → putOk (i + j) = true := by
  intro fuel
  induction fuel with
  | zero => intro i; simp [okRun]
  | succ f ih =>
    intro i
    constructor
    · intro heq j hj
      exact okRun_lt_putOk putOk (f + 1) i j (by omega)
    · intro hall
      have h0 : putOk i = true := by simpa using hall 0 (by omega)
      have hrest : okRun putOk (i + 1) f = f := by
        rw [ih (i + 1)]
        intro j hj
        have := hall (j + 1) (by omega)
        have harith : i + (j + 1) = i + 1 + j := by omega
        rwa [harith] at this
      simp only [okRun, if_pos h0, hrest]

theorem runChunks_snd (fileSize chunkSize totalChunks : Nat)
    (putOk : Nat → Bool) :
    ∀ fuel i,
      (runChunks fileSize chunkSize totalChunks putOk i fuel).2 = true ↔
        okRun putOk i fuel = fuel := by
  intro fuel
  induction fuel with
  | zero => intro i; simp [runChunks, okRun]
  | succ f ih =>
    intro i
    by_cases h : putOk i = true
    · simp only [runChunks, if_pos h, okRun]
      rw [ih (i + 1)]
      omega
    · simp only [runChunks, if_neg h, okRun]
      simp

theorem runChunks_putNumbers (fileSize chunkSize totalChunks : Nat)
    (putOk : Nat → Bool) :
    ∀ fuel i,
      putNumbers (runChunks fileSize chunkSize totalChunks putOk i fuel).1 =
        List.range' i (min fuel (okRun putOk i fuel + 1)) := by
  intro fuel
  induction fuel with
  | zero => intro i; simp [runChunks, putNumbers, okRun]
  | succ f ih =>
    intro i
    by_cases h : putOk i = true
    · simp only [runChunks, if_pos h, okRun, putNumbers_cons_put,
        putNumbers_cons_progress]
      rw [ih (i + 1)]
      rw [show min (f + 1) (okRun putOk (i + 1) f + 1 + 1) =
          min f (okRun putOk (i + 1) f + 1) + 1 by omega]
      rw [List.range'_succ]
    · simp only [runChunks, if_neg h, okRun]
      simp [putNumbers, List.range'_succ]

theorem runChunks_progressValues (fileSize chunkSize totalChunks : Nat)
    (putOk : Nat → Bool) :
    ∀ fuel i,
      progressValues (runChunks fileSize chunkSize totalChunks putOk i fuel).1 =
        (List.range' (i + 1) (okRun putOk i fuel)).map
          (fun k => reportedProgress k totalChunks) := by
  intro fuel
  induction fuel with
  | zero => intro i; simp [runChunks, progressValues, okRun]
  | succ f ih =>
    intro i
    by_cases h : putOk i = true
    · simp only [runChunks, if_pos h, okRun, progressValues_cons_put,
        progressValues_cons_progress]
      rw [ih (i + 1), List.range'_succ, List.map_cons]
    · simp only [runChunks, if_neg h, okRun]
      simp [progressValues]

theorem runChunks_no_complete (fileSize chunkSize totalChunks : Nat)
    (putOk : Nat → Bool) :
    ∀ fuel i,
      ChunkEvent.completeCall ∉
        (runChunks fileSize chunkSize totalChunks putOk i fuel).1 := by
  intro fuel
  induction fuel with
  | zero => intro i; simp [runChunks]
  | succ f ih =>
    intro i
    by_cases h : putOk i = true
    · simp only [runChunks, if_pos h]
      simp [ih (i + 1)]
    · simp [runChunks, if_neg h]

theorem runChunks_put_mem (fileSize chunkSize totalChunks : Nat)
    (putOk : Nat → Bool) :
    ∀ fuel i j s e,
      ChunkEvent.putChunk j s e ∈
        (runChunks fileSize chunkSize totalChunks putOk i fuel).1 →
      s = j * chunkSize ∧ e = min (j * chunkSize + chunkSize) fileSize ∧
        i ≤ j ∧ j < i + fuel := by
  intro fuel
  induction fuel with
  | zero => intro i j s e hmem; simp [runChunks] at hmem
  | succ f ih =>
    intro i j s e hmem
    by_cases h : putOk i = true
    · simp only [runChunks, if_pos h, List.mem_cons] at hmem
      rcases hmem with heq | heq | hrest
      · obtain ⟨rfl, rfl, rfl⟩ :
          j = i ∧ s = i * chunkSize ∧
            e = min (i * chunkSize + chunkSize) fileSize := by
          injection heq with h1 h2 h3
          exact ⟨h1, h2, h3⟩
        exact ⟨rfl, rfl, le_refl _, by omega⟩
      · exact absurd heq (by simp)
      · obtain ⟨hs, he, hij, hlt⟩ := ih (i + 1) j s e hrest
        exact ⟨hs, he, by omega, by omega⟩
    · simp only [runChunks, if_neg h, List.mem_cons] at hmem
      rcases hmem with heq | hrest
      · obtain ⟨rfl, rfl, rfl⟩ :
          j = i ∧ s = i * chunkSize ∧
            e = min (i * chunkSize + chunkSize) fileSize := by
          injection heq with h1 h2 h3
          exact ⟨h1, h2, h3⟩
        exact ⟨rfl, rfl, le_refl _, by omega⟩
      · simp at hrest

theorem putNumbers_append (l1 l2 : List ChunkEvent) :
    putNumbers (l1 ++ l2) = putNumbers l1 ++ putNumbers l2 :=
  List.filterMap_append l1 l2 _

theorem progressValues_append (l1 l2 : List ChunkEvent) :
    progressValues (l1 ++ l2) = progressValues l1 ++ progressValues l2 :=
  List.filterMap_append l1 l2 _

theorem putNumbers_single_complete :
    putNumbers [ChunkEvent.completeCall] = [] := rfl

theorem progressValues_single_complete :
    progressValues [ChunkEvent.completeCall] = [] := rfl

theorem uploadTrace_eq_ite (fileSize chunkSize totalChunks : Nat)
    (putOk : Nat → Bool) :
    uploadTrace fileSize chunkSize totalChunks putOk =
      if (runChunks fileSize chunkSize totalChunks putOk 0 totalChunks).2 = true
      then (runChunks fileSize chunkSize totalChunks putOk 0 totalChunks).1 ++
        [ChunkEvent.completeCall]
      else (runChunks fileSize chunkSize totalChunks putOk 0 totalChunks).1 := by
  unfold uploadTrace uploadFileChunked
  by_cases h2 :
      (runChunks fileSize chunkSize totalChunks putOk 0 totalChunks).2 = true
  · rw [if_pos h2, if_pos h2]
  · rw [if_neg h2, if_neg h2]

theorem uploadAll_iff (fileSize chunkSize totalChunks : Nat)
    (putOk : Nat → Bool) :
    (runChunks fileSize chunkSize totalChunks putOk 0 totalChunks).2 = true ↔
      (∀ j, j < totalChunks → putOk j = true) := by
  rw [runChunks_snd fileSize chunkSize totalChunks putOk totalChunks 0,
    okRun_eq_iff putOk totalChunks 0]
  simp

theorem uploadFileChunked_snd (fileSize chunkSize totalChunks : Nat)
    (putOk : Nat → Bool) :
    (uploadFileChunked fileSize chunkSize totalChunks putOk).2 =
      (runChunks fileSize chunkSize totalChunks putOk 0 totalChunks).2 := by
  unfold uploadFileChunked
  by_cases h2 :
      (runChunks fileSize chunkSize totalChunks putOk 0 totalChunks).2 = true <;>
    simp [h2]

theorem uploadTrace_putNumbers (fileSize chunkSize totalChunks : Nat)
    (putOk : Nat → Bool) :
    putNumbers (uploadTrace fileSize chunkSize totalChunks putOk) =
      List.range' 0 (min totalChunks (okRun putOk 0 totalChunks + 1)) := by
  rw [uploadTrace_eq_ite]
  by_cases h2 :
      (runChunks fileSize chunkSize totalChunks putOk 0 totalChunks).2 = true
  · rw [if_pos h2, putNumbers_append, putNumbers_single_complete,
      List.append_nil, runChunks_putNumbers]
  · rw [if_neg h2, runChunks_putNumbers]

theorem uploadTrace_progressValues (fileSize chunkSize totalChunks : Nat)
    (putOk : Nat → Bool) :
    progressValues (uploadTrace fileSize chunkSize totalChunks putOk) =
      (List.range' 1 (okRun putOk 0 totalChunks)).map
        (fun k => reportedProgress k totalChunks) := by
  rw [uploadTrace_eq_ite]
  by_cases h2 :
      (runChunks fileSize chunkSize totalChunks putOk 0 totalChunks).2 = true
  · rw [if_pos h2, progressValues_append, progressValues_single_complete,
      List.append_nil, runChunks_progressValues]
  · rw [if_neg h2, runChunks_progressValues]

theorem chainLe_map_reportedProgress (n : Nat) :
    ∀ m s, List.Chain' (fun a b => a ≤ b)
      ((List.range' s m).map fun k => reportedProgress k n) := by
  intro m
  induction m with
  | zero => intro s; simp
  | succ m ih =>
    intro s
    rw [List.range'_succ, List.map_cons]
    rcases m with _ | m2
    · simp
    · rw [List.range'_succ, List.map_cons, List.chain'_cons]
      constructor
      · exact reportedProgress_mono (by omega)
      · have h := ih (s + 1)
        rwa [List.range'_succ, List.map_cons] at h

theorem chunkedMutation_events (fileSize chunkSize totalChunks : Nat)
    (putOk : Nat → Bool) :
    (chunkedMutation fileSize chunkSize totalChunks putOk).events =
      uploadTrace fileSize chunkSize totalChunks putOk := by
  unfold chunkedMutation uploadTrace
  by_cases h2 : (uploadFileChunked fileSize chunkSize totalChunks putOk).2 = true
  · rw [if_pos h2]
  · rw [if_neg h2]

/-- C1: the chunked upload client slices the file into fixed-size pieces —
chunk `j` covers bytes `[j * chunkSize, min((j + 1) * chunkSize, fileSize))`,
so only the last chunk may be smaller — issues its presigned PUTs strictly
sequentially in increasing 0-based chunk order (the PUT numbers form an
initial range, and chunk `j + 1` is PUT only when chunk `j`'s PUT
succeeded), and calls the completion endpoint exactly once, as the final
action, only when all `totalChunks` PUTs succeeded; when any PUT fails the
completion endpoint is never invoked. -/
theorem uploadFileChunked_sequential_complete
    (fileSize chunkSize totalChunks : Nat) (putOk : Nat → Bool) :
    (∀ j s e, ChunkEvent.putChunk j s e ∈
        uploadTrace fileSize chunkSize totalChunks putOk →
      s = j * chunkSize ∧ e = min ((j + 1) * chunkSize) fileSize ∧
        j < totalChunks) ∧
    putNumbers (uploadTrace fileSize chunkSize totalChunks putOk) =
      List.range (min totalChunks (okRun putOk 0 totalChunks + 1)) ∧
    (∀ j, j + 1 ∈ putNumbers (uploadTrace fileSize chunkSize totalChunks putOk) →
      putOk j = true) ∧
    ((∀ j, j < totalChunks → putOk j = true) →
      uploadTrace fileSize chunkSize totalChunks putOk =
        (runChunks fileSize chunkSize totalChunks putOk 0 totalChunks).1 ++
          [ChunkEvent.completeCall]) ∧
    (uploadTrace fileSize chunkSize totalChunks putOk).count
        ChunkEvent.completeCall =
      (if ∀ j, j < totalChunks → putOk j = true then 1 else 0) ∧
    (ChunkEvent.completeCall ∈ uploadTrace fileSize chunkSize totalChunks putOk →
      (uploadTrace fileSize chunkSize totalChunks putOk).getLast? =
        some ChunkEvent.completeCall) ∧
    ((¬ ∀ j, j < totalChunks → putOk j = true) →
      ChunkEvent.completeCall ∉ uploadTrace fileSize chunkSize totalChunks putOk) := by
  refine ⟨?_, ?_, ?_, ?_, ?_, ?_, ?_⟩
  · intro j s e hmem
    rw [uploadTrace_eq_ite] at hmem
    by_cases h2 :
        (runChunks fileSize chunkSize totalChunks putOk 0 totalChunks).2 = true
    · rw [if_pos h2, List.mem_append] at hmem
      rcases hmem with hmem | hmem
      · obtain ⟨hs, he, _, hlt⟩ := runChunks_put_mem fileSize chunkSize
          totalChunks putOk totalChunks 0 j s e hmem
        refine ⟨hs, ?_, by omega⟩
        rw [Nat.succ_mul]
        exact he
      · simp at hmem
    · rw [if_neg h2] at hmem
      obtain ⟨hs, he, _, hlt⟩ := runChunks_put_mem fileSize chunkSize
        totalChunks putOk totalChunks 0 j s e hmem
      refine ⟨hs, ?_, by omega⟩
      rw [Nat.succ_mul]
      exact he
  · rw [uploadTrace_putNumbers, List.range_eq_range']
  · intro j hj
    rw [uploadTrace_putNumbers, List.mem_range'_1] at hj
    have hlt : j < okRun putOk 0 totalChunks := by omega
    have h := okRun_lt_putOk putOk totalChunks 0 j hlt
    simpa using h
  · intro hall
    rw [uploadTrace_eq_ite,
      if_pos ((uploadAll_iff fileSize chunkSize totalChunks putOk).mpr hall)]
  · by_cases hall : ∀ j, j < totalChunks → putOk j = true
    · rw [if_pos hall, uploadTrace_eq_ite,
        if_pos ((uploadAll_iff fileSize chunkSize totalChunks putOk).mpr hall),
        List.count_append,
        List.count_eq_zero.mpr
          (runChunks_no_complete fileSize chunkSize totalChunks putOk totalChunks 0)]
      simp [List.count_singleton_self]
    · rw [if_neg hall, uploadTrace_eq_ite,
        if_neg (fun hc => hall
          ((uploadAll_iff fileSize chunkSize totalChunks putOk).mp hc))]
      exact List.count_eq_zero.mpr
        (runChunks_no_complete fileSize chunkSize totalChunks putOk totalChunks 0)
  · intro hmem
    by_cases hall : ∀ j, j < totalChunks → putOk j = true
    · rw [uploadTrace_eq_ite,
        if_pos ((uploadAll_iff fileSize chunkSize totalChunks putOk).mpr hall)]
      exact List.getLast?_concat _
    · rw [uploadTrace_eq_ite,
        if_neg (fun hc => hall
          ((uploadAll_iff fileSize chunkSize totalChunks putOk).mp hc))] at hmem
      exact absurd hmem
        (runChunks_no_complete fileSize chunkSize totalChunks putOk totalChunks 0)
  · intro hna
    rw [uploadTrace_eq_ite,
      if_neg (fun hc => hna
        ((uploadAll_iff fileSize chunkSize totalChunks putOk).mp hc))]
    exact runChunks_no_complete fileSize chunkSize totalChunks putOk totalChunks 0

/-- Oracle for a run in which every chunk PUT succeeds. -/
def allPutsOk : Nat → Bool := fun _ => true

/-- Oracle for a run in which chunk 0 succeeds and chunk 1 fails. -/
def putFailsAt1 : Nat → Bool := fun j => decide (j = 0)

/-- Closed instantiation of the chunked upload specification at a 25-byte
file in 10-byte chunks: slicing of chunk 1, sequential PUT numbers, the
completion call as single final action, and its absence when chunk 1
fails. -/
theorem uploadFileChunked_sequential_complete_witness :
    (10 = 1 * 10 ∧ 20 = min ((1 + 1) * 10) 25 ∧ 1 < 3) ∧
    putNumbers (uploadTrace 25 10 3 allPutsOk) =
      List.range (min 3 (okRun allPutsOk 0 3 + 1)) ∧
    allPutsOk 1 = true ∧
    uploadTrace 25 10 3 allPutsOk =
      (runChunks 25 10 3 allPutsOk 0 3).1 ++ [ChunkEvent.completeCall] ∧
    (uploadTrace 25 10 3 allPutsOk).count ChunkEvent.completeCall = 1 ∧
    (uploadTrace 25 10 3 allPutsOk).getLast? = some ChunkEvent.completeCall ∧
    ChunkEvent.completeCall ∉ uploadTrace 25 10 3 putFailsAt1 :=
  ⟨(uploadFileChunked_sequential_complete 25 10 3 allPutsOk).1 1 10 20 (by decide),
   (uploadFileChunked_sequential_complete 25 10 3 allPutsOk).2.1,
   (uploadFileChunked_sequential_complete 25 10 3 allPutsOk).2.2.1 1 (by decide),
   (uploadFileChunked_sequential_complete 25 10 3 allPutsOk).2.2.2.1 (by decide),
   ((uploadFileChunked_sequential_complete 25 10 3 allPutsOk).2.2.2.2.1).trans
     (if_pos (by decide)),
   (uploadFileChunked_sequential_complete 25 10 3 allPutsOk).2.2.2.2.2.1 (by decide),
   (uploadFileChunked_sequential_complete 25 10 3 putFailsAt1).2.2.2.2.2.2 (by decide)⟩

/-- C7 is false on the code: the claim's formula `round(100 * k /
totalChunks)` does not match what the client computes in double
precision.  With the client's fixed 1 MB chunks on a 40 MiB file
(`totalChunks = 40`) and every PUT succeeding, the progress reported
after chunk 23 is 57, while `round(100 * 23 / 40) = round(57.5) = 58`. -/
theorem chunkedUpload_progress_round_counterexample :
    (progressValues (chunkedMutation 41943040 1048576 40 allPutsOk).events)[22]? =
      some 57 ∧
    jsRound (100 * 23) 40 = 58 ∧
    (progressValues (chunkedMutation 41943040 1048576 40 allPutsOk).events)[22]? ≠
      some (jsRound (100 * 23) 40) := by
  have hok : okRun allPutsOk 0 40 = 40 := by decide
  have hval :
      (progressValues (chunkedMutation 41943040 1048576 40 allPutsOk).events)[22]? =
        some (reportedProgress 23 40) := by
    rw [chunkedMutation_events, uploadTrace_progressValues, hok]
    simp only [List.getElem?_map,
      List.getElem?_range' 1 1 (by norm_num : (22:Nat) < 40), Option.map_some']
  refine ⟨?_, ?_, ?_⟩
  · rw [hval, reportedProgress_23_40]
  · decide
  · rw [hval, reportedProgress_23_40]
    decide

/-- C7 (amended): during a chunked upload the progress reported after the
k-th completed chunk (1-based) is the binary64 evaluation of
`Math.round(((k) / totalChunks) * 100)` — which can differ by one from the
exact `round(100 * k / totalChunks)` — and the reported sequence is
non-decreasing and bounded by 100, ends at 100 after the final chunk when
every chunk succeeds, and the mutation finally sets progress 100 with
status completed. -/
theorem chunkedUpload_progress_spec
    (fileSize chunkSize totalChunks : Nat) (putOk : Nat → Bool) :
    progressValues (chunkedMutation fileSize chunkSize totalChunks putOk).events =
      (List.range' 1 (okRun putOk 0 totalChunks)).map
        (fun k => reportedProgress k totalChunks) ∧
    (∀ k, k < okRun putOk 0 totalChunks →
      (progressValues
        (chunkedMutation fileSize chunkSize totalChunks putOk).events)[k]? =
        some (reportedProgress (k + 1) totalChunks)) ∧
    List.Chain' (fun a b => a ≤ b)
      (progressValues (chunkedMutation fileSize chunkSize totalChunks putOk).events) ∧
    (∀ p ∈ progressValues
        (chunkedMutation fileSize chunkSize totalChunks putOk).events,
      p ≤ 100) ∧
    ((∀ j, j < totalChunks → putOk j = true) → 0 < totalChunks →
      (progressValues
        (chunkedMutation fileSize chunkSize totalChunks putOk).events).getLast? =
        some 100) ∧
    ((∀ j, j < totalChunks → putOk j = true) →
      (chunkedMutation fileSize chunkSize totalChunks putOk).finalProgress =
        some 100 ∧
      (chunkedMutation fileSize chunkSize totalChunks putOk).finalStatus =
        MutStatus.completed) := by
  refine ⟨?_, ?_, ?_, ?_, ?_, ?_⟩
  · rw [chunkedMutation_events, uploadTrace_progressValues]
  · intro k hk
    rw [chunkedMutation_events, uploadTrace_progressValues]
    simp only [List.getElem?_map, List.getElem?_range' 1 1 hk, Option.map_some']
    rw [show (1 + 1 * k : Nat) = k + 1 by omega]
  · rw [chunkedMutation_events, uploadTrace_progressValues]
    exact chainLe_map_reportedProgress totalChunks (okRun putOk 0 totalChunks) 1
  · intro p hp
    rw [chunkedMutation_events, uploadTrace_progressValues, List.mem_map] at hp
    obtain ⟨k, hk, rfl⟩ := hp
    rw [List.mem_range'_1] at hk
    have hle := okRun_le putOk totalChunks 0
    exact reportedProgress_le_hundred (by omega)
  · intro hall hpos
    have hok : okRun putOk 0 totalChunks = totalChunks := by
      rw [okRun_eq_iff putOk totalChunks 0]
      intro j hj
      simpa using hall j hj
    obtain ⟨m, rfl⟩ : ∃ m, totalChunks = m + 1 := ⟨totalChunks - 1, by omega⟩
    rw [chunkedMutation_events, uploadTrace_progressValues, hok,
      List.range'_concat, List.map_append]
    simp only [List.map_cons, List.map_nil]
    rw [List.getLast?_concat]
    rw [show (1 + 1 * m : Nat) = m + 1 by omega, reportedProgress_self (by omega)]
  · intro hall
    have h2 : (uploadFileChunked fileSize chunkSize totalChunks putOk).2 = true := by
      rw [uploadFileChunked_snd]
      exact (uploadAll_iff fileSize chunkSize totalChunks putOk).mpr hall
    constructor <;> simp [chunkedMutation, h2]

/-- Closed instantiation of the amended progress specification at 3
chunks, all PUTs succeeding: the second report is the double-precision
progress for chunk 2, the final report is 100, and the mutation finishes
at progress 100 with status completed. -/
theorem chunkedUpload_progress_spec_witness :
    (progressValues (chunkedMutation 25 10 3 allPutsOk).events)[1]? =
      some (reportedProgress 2 3) ∧
    (progressValues (chunkedMutation 25 10 3 allPutsOk).events).getLast? =
      some 100 ∧
    (chunkedMutation 25 10 3 allPutsOk).finalProgress = some 100 ∧
    (chunkedMutation 25 10 3 allPutsOk).finalStatus = MutStatus.completed :=
  ⟨(chunkedUpload_progress_spec 25 10 3 allPutsOk).2.1 1 (by decide),
   (chunkedUpload_progress_spec 25 10 3 allPutsOk).2.2.2.2.1 (by decide) (by decide),
   ((chunkedUpload_progress_spec 25 10 3 allPutsOk).2.2.2.2.2 (by decide)).1,
   ((chunkedUpload_progress_spec 25 10 3 allPutsOk).2.2.2.2.2 (by decide)).2⟩
